import Mathlib

/-!
# FUD-Fader: relayer loop and dataset firehose

A shallow embedding of three Go programs:

* `src/relayer/main.go`   (namespace `Relayer`): the relay loop that polls the
  sentiment feed, converts the score, builds, signs and submits a transaction;
* `src/DataStream/main.go` (namespace `DataStream`): the CSV firehose and its bridge;
* `src/Stage1/main.go`     (namespace `Stage1`): the earlier version of the firehose.

Calls that leave the program (HTTP, JSON decoding, the go-ethereum library, the
RPC node, the ticker, the CSV reader) are parameters of the embedding; the
program's own control flow and arithmetic are definitions.  Every external
interaction is recorded, in program order, in a trace of events.
-/

namespace Relayer

/-! ## Data model -/

/-- Go `int` on a 64-bit target: the value of `x` reduced to the two's-complement
range `[-2^63, 2^63)`. -/
def wrapInt (x : Int) : Int := (x + 2 ^ 63) % 2 ^ 64 - 2 ^ 63

/-- The constant `contractABI` (lines 25-37). -/
def contractABI : String :=
  "[\n\t\x7b\n\t\t\"inputs\": [\n\t\t\t\x7b\"internalType\": \"string\", \"name\": \"_username\", \"type\": \"string\"\x7d,\n\t\t\t\x7b\"internalType\": \"string\", \"name\": \"_text\", \"type\": \"string\"\x7d,\n\t\t\t\x7b\"internalType\": \"int256\", \"name\": \"_sentimentScore\", \"type\": \"int256\"\x7d\n\t\t],\n\t\t\"name\": \"submitSentiment\",\n\t\t\"outputs\": [],\n\t\t\"stateMutability\": \"nonpayable\",\n\t\t\"type\": \"function\"\n\t\x7d\n]"

/-- The struct `SentimentResponse`.  `OracleScore` is a Go `int`;
`CommunityVibeScore` is a `float64`, carried as its IEEE-754 bit pattern (the
program only prints it). -/
structure SentimentResponse where
  OracleScore : Int
  CommunityVibeScore : Nat
  Username : String
  TextPreview : String
  Timestamp : String
deriving DecidableEq, Repr

/-- An `*http.Response` as far as `fetchSentiment` reads it. -/
structure HttpResponse where
  StatusCode : Int
  Body : String
deriving DecidableEq, Repr

/-- A 20-byte `common.Address`, as a number. -/
abbrev Address := Nat

/-- An `*ecdsa.PrivateKey`, as its scalar. -/
abbrev PrivateKey := Nat

/-- An `*ecdsa.PublicKey`, as an encoded point. -/
abbrev PublicKey := Nat

/-- The fields `types.NewTransaction(nonce, to, amount, gasLimit, gasPrice, data)`
stores, under the names go-ethereum gives them in `LegacyTx`. -/
structure Transaction where
  Nonce : Nat
  To : Address
  Value : Int
  Gas : Nat
  GasPrice : Int
  Data : List Nat
deriving DecidableEq, Repr

/-- The result of `types.SignTx`: go-ethereum returns a copy of the transaction
that carries the signature, so the signed transaction keeps every field of the
one that was signed. -/
structure SignedTx where
  inner : Transaction
  sig : List Nat
deriving DecidableEq, Repr

/-- An argument handed to `parsedABI.Pack`. -/
inductive AbiArg where
  | str (s : String)
  | bigInt (v : Int)
deriving DecidableEq, Repr

/-- An operand of a `Printf`-style call, kept unformatted. -/
inductive FmtArg where
  | int (v : Int)
  | str (s : String)
  | float (bits : Nat)
  | err (e : String)
  | addr (a : Address)
  | dur (ns : Int)
  | txHash (stx : SignedTx)
deriving DecidableEq, Repr

/-- What the process does that is visible outside it, in program order. -/
inductive Event where
  | fmtPrintln (msg : String)
  | fmtPrintf (format : String) (args : List FmtArg)
  | logPrintf (format : String) (args : List FmtArg)
  | logFatal (format : String) (args : List FmtArg)
  | goPanic (msg : String)
  | dial (url : String) (ok : Bool)
  | networkID (ok : Bool)
  | httpGet (url : String) (status : Option Int)
  | jsonDecode (ok : Bool)
  | abiJSON (src : String) (ok : Bool)
  | abiPack (method : String) (args : List AbiArg) (ok : Bool)
  | pendingNonceAt (account : Address) (res : Option Nat)
  | suggestGasPrice (res : Option Int)
  | newTransaction (tx : Transaction)
  | signTx (tx : Transaction) (chainID : Int) (ok : Bool)
  | sendTransaction (stx : SignedTx) (ok : Bool)
  | tick
deriving DecidableEq, Repr

/-- Everything outside the program.  `σ` is the state of the outside world (feed,
RPC node, clock); `β` is the type of a parsed ABI.  Library functions that are
deterministic are pure fields; network calls and the ticker thread the world. -/
structure Env (σ β : Type) where
  /-- `http.Client{Timeout: 5s}.Get(url)`; an error covers request failure and timeout. -/
  httpGet : String → σ → Except String HttpResponse × σ
  /-- `json.NewDecoder(body).Decode(&sentiment)`. -/
  jsonDecode : String → Except String SentimentResponse
  /-- `abi.JSON(strings.NewReader(src))`. -/
  abiJSON : String → Except String β
  /-- `parsedABI.Pack(method, args...)`. -/
  abiPack : β → String → List AbiArg → Except String (List Nat)
  /-- `client.PendingNonceAt(ctx, account)`. -/
  pendingNonceAt : Address → σ → Except String Nat × σ
  /-- `client.SuggestGasPrice(ctx)`. -/
  suggestGasPrice : σ → Except String Int × σ
  /-- The signature `types.SignTx(tx, types.NewEIP155Signer(chainID), key)` attaches. -/
  signTx : Transaction → Int → PrivateKey → Except String (List Nat)
  /-- `client.SendTransaction(ctx, signedTx)`. -/
  sendTransaction : SignedTx → σ → Except String Unit × σ
  /-- `<-ticker.C` for a ticker of the given period (nanoseconds). -/
  tick : Int → σ → σ
  /-- `crypto.HexToECDSA`. -/
  hexToECDSA : String → Except String PrivateKey
  /-- `privateKey.Public().(*ecdsa.PublicKey)`; `none` when the assertion fails. -/
  publicECDSA : PrivateKey → Option PublicKey
  /-- `crypto.PubkeyToAddress`. -/
  pubkeyToAddress : PublicKey → Address
  /-- `ethclient.Dial`. -/
  dial : String → σ → Except String Unit × σ
  /-- `client.NetworkID(ctx)`. -/
  networkID : σ → Except String Int × σ
  /-- `common.HexToAddress`. -/
  hexToAddress : String → Address
  /-- `bind.NewKeyedTransactorWithChainID`, result discarded. -/
  newKeyedTransactor : PrivateKey → Int → Except String Unit
  /-- `time.ParseDuration`, in nanoseconds. -/
  parseDuration : String → Except String Int

/-- The values the start-up code of `main` hands to the relay loop. -/
structure Config where
  apiURL : String
  fromAddress : Address
  contractAddr : Address
  chainID : Int
  privateKey : PrivateKey
  interval : Int
deriving DecidableEq, Repr

variable {σ β : Type}

/-! ## `getEnv` and `fetchSentiment` -/

/-- The function `getEnv` (lines 215-220); `osGetenv` is `os.Getenv`. -/
def getEnv (osGetenv : String → String) (key defaultValue : String) : String :=
  if osGetenv key ≠ "" then osGetenv key else defaultValue

/-- The function `fetchSentiment` (lines 194-213): the result, the calls it made
(the GET with the status it saw, `none` for a failed request, and the decoding
when it got that far) and the world after them. -/
def fetchSentiment (env : Env σ β) (url : String) (s : σ) :
    Except String SentimentResponse × List Event × σ :=
  match env.httpGet url s with
  | (.error err, s1) =>
      (.error ("HTTP request failed: " ++ err), [.httpGet url none], s1)
  | (.ok resp, s1) =>
      if resp.StatusCode ≠ 200 then
        (.error ("API returned status " ++ toString resp.StatusCode),
          [.httpGet url (some resp.StatusCode)], s1)
      else
        match env.jsonDecode resp.Body with
        | .error err =>
            (.error ("failed to decode response: " ++ err),
              [.httpGet url (some resp.StatusCode), .jsonDecode false], s1)
        | .ok sentiment =>
            (.ok sentiment, [.httpGet url (some resp.StatusCode), .jsonDecode true], s1)

/-! ## The relay loop -/

/-- The expression `(sentiment.OracleScore * 2) - 100` of line 125, in Go `int`
arithmetic. -/
def sentimentScore (oracleScore : Int) : Int :=
  wrapInt (wrapInt (oracleScore * 2) - 100)

/-- The constant `gasLimit` of line 166. -/
def gasLimit : Nat := 200000

/-- The three `Printf` calls of lines 127-131. -/
def announce (sentiment : SentimentResponse) : List Event :=
  [ .fmtPrintf "📊 Fetched Sentiment: Oracle Score=%d, Vibe=%.4f\n"
      [.int sentiment.OracleScore, .float sentiment.CommunityVibeScore],
    .fmtPrintf "🔄 Converting to on-chain format: %d (range: -100 to 100)\n"
      [.int (sentimentScore sentiment.OracleScore)],
    .fmtPrintf "📤 Submitting to contract...\n" [] ]

/-- The arguments of the `Pack` call of line 142. -/
def packArgs (sentiment : SentimentResponse) : List AbiArg :=
  [.str "relayer", .str sentiment.TextPreview,
   .bigInt (wrapInt (sentimentScore sentiment.OracleScore))]

/-- The transaction of line 169:
`types.NewTransaction(nonce, contractAddr, big.NewInt(0), gasLimit, gasPrice, data)`. -/
def cycleTx (cfg : Config) (nonce : Nat) (gasPrice : Int) (data : List Nat) : Transaction :=
  { Nonce := nonce, To := cfg.contractAddr, Value := 0,
    Gas := gasLimit, GasPrice := gasPrice, Data := data }

/-- One pass through the body of the `for` loop of `main` (lines 116-190): the
events of the pass and the world it leaves.  Every path ends by waiting on the
ticker; the body has no `break`, `return` or fatal call. -/
def relayCycle (env : Env σ β) (cfg : Config) (s : σ) : List Event × σ :=
  match fetchSentiment env cfg.apiURL s with
  | (.error err, ev0, s1) =>
      (ev0 ++ [.logPrintf "⚠️  Failed to fetch sentiment: %v" [.err err], .tick],
        env.tick cfg.interval s1)
  | (.ok sentiment, ev0, s1) =>
    let pre := ev0 ++ announce sentiment
    match env.abiJSON contractABI with
    | .error err =>
        (pre ++ [.abiJSON contractABI false,
                 .logPrintf "⚠️  Failed to parse ABI: %v" [.err err], .tick],
          env.tick cfg.interval s1)
    | .ok parsedABI =>
      match env.abiPack parsedABI "submitSentiment" (packArgs sentiment) with
      | .error err =>
          (pre ++ [.abiJSON contractABI true,
                   .abiPack "submitSentiment" (packArgs sentiment) false,
                   .logPrintf "⚠️  Failed to encode function call: %v" [.err err], .tick],
            env.tick cfg.interval s1)
      | .ok data =>
        let enc := pre ++ [.abiJSON contractABI true,
                           .abiPack "submitSentiment" (packArgs sentiment) true]
        match env.pendingNonceAt cfg.fromAddress s1 with
        | (.error err, s2) =>
            (enc ++ [.pendingNonceAt cfg.fromAddress none,
                     .logPrintf "⚠️  Failed to get nonce: %v" [.err err], .tick],
              env.tick cfg.interval s2)
        | (.ok nonce, s2) =>
          match env.suggestGasPrice s2 with
          | (.error err, s3) =>
              (enc ++ [.pendingNonceAt cfg.fromAddress (some nonce),
                       .suggestGasPrice none,
                       .logPrintf "⚠️  Failed to get gas price: %v" [.err err], .tick],
                env.tick cfg.interval s3)
          | (.ok gasPrice, s3) =>
            let tx := cycleTx cfg nonce gasPrice data
            let built := enc ++ [.pendingNonceAt cfg.fromAddress (some nonce),
                                 .suggestGasPrice (some gasPrice),
                                 .newTransaction tx]
            match env.signTx tx cfg.chainID cfg.privateKey with
            | .error err =>
                (built ++ [.signTx tx cfg.chainID false,
                           .logPrintf "⚠️  Failed to sign transaction: %v" [.err err], .tick],
                  env.tick cfg.interval s3)
            | .ok sig =>
              let signedTx : SignedTx := { inner := tx, sig := sig }
              match env.sendTransaction signedTx s3 with
              | (.error err, s4) =>
                  (built ++ [.signTx tx cfg.chainID true,
                             .sendTransaction signedTx false,
                             .logPrintf "⚠️  Failed to send transaction: %v" [.err err], .tick],
                    env.tick cfg.interval s4)
              | (.ok _, s4) =>
                  (built ++ [.signTx tx cfg.chainID true,
                             .sendTransaction signedTx true,
                             .fmtPrintf "✅ Transaction sent: %s\n" [.txHash signedTx],
                             .fmtPrintf "   Username: \x27relayer\x27, Text: \x27%s\x27, Score: %d\n"
                               [.str sentiment.TextPreview,
                                .int (sentimentScore sentiment.OracleScore)],
                             .tick],
                    env.tick cfg.interval s4)

/-- The `for` loop of `main` (lines 115-191), run for `fuel` passes.  The Go
loop has no exit; `fuel` only bounds how much of the infinite run is observed. -/
def relayLoop (env : Env σ β) (cfg : Config) : Nat → σ → List Event × σ
  | 0, s => ([], s)
  | fuel + 1, s =>
      let r := relayCycle env cfg s
      let rest := relayLoop env cfg fuel r.2
      (r.1 ++ rest.1, rest.2)

/-- The function `main` (lines 47-192): the start-up code, then the relay loop run
for `fuel` passes.  `log.Fatal` ends the process, so a trace that ends in
`logFatal` is a terminated run; `time.NewTicker` panics on a period that is not
positive. -/
def main (env : Env σ β) (osGetenv : String → String) (fuel : Nat) (s : σ) :
    List Event × σ :=
  let hello : List Event := [.fmtPrintln "🚀 FUD-Fader Relayer Starting..."]
  let apiURL := getEnv osGetenv "API_URL" "http://localhost:8000/current"
  let rpcURL := getEnv osGetenv "RPC_URL" "http://localhost:8545"
  let contractAddress := getEnv osGetenv "CONTRACT_ADDRESS" ""
  let privateKeyHex := getEnv osGetenv "PRIVATE_KEY" ""
  let relayInterval := getEnv osGetenv "RELAY_INTERVAL" "30"
  if contractAddress = "" then
    (hello ++ [.logFatal "❌ CONTRACT_ADDRESS environment variable is required" []], s)
  else if privateKeyHex = "" then
    (hello ++ [.logFatal "❌ PRIVATE_KEY environment variable is required" []], s)
  else
    match env.hexToECDSA privateKeyHex with
    | .error err => (hello ++ [.logFatal "❌ Invalid private key: %v" [.err err]], s)
    | .ok privateKey =>
      match env.publicECDSA privateKey with
      | none => (hello ++ [.logFatal "❌ Error casting public key to ECDSA" []], s)
      | some publicKeyECDSA =>
        let fromAddress := env.pubkeyToAddress publicKeyECDSA
        let ev1 := hello ++ [.fmtPrintf "📝 Relayer Address: %s\n" [.addr fromAddress]]
        match env.dial rpcURL s with
        | (.error err, s1) =>
            (ev1 ++ [.dial rpcURL false,
                     .logFatal "❌ Failed to connect to Ethereum node: %v" [.err err]], s1)
        | (.ok _, s1) =>
          match env.networkID s1 with
          | (.error err, s2) =>
              (ev1 ++ [.dial rpcURL true, .networkID false,
                       .logFatal "❌ Failed to get chain ID: %v" [.err err]], s2)
          | (.ok chainID, s2) =>
            let contractAddr := env.hexToAddress contractAddress
            let ev2 := ev1 ++ [.dial rpcURL true, .networkID true,
                               .fmtPrintf "⛓️  Chain ID: %s\n" [.str (toString chainID)],
                               .fmtPrintf "📄 Contract Address: %s\n" [.addr contractAddr]]
            match env.newKeyedTransactor privateKey chainID with
            | .error err =>
                (ev2 ++ [.logFatal "❌ Failed to create transactor: %v" [.err err]], s2)
            | .ok _ =>
              match env.parseDuration (relayInterval ++ "s") with
              | .error err =>
                  (ev2 ++ [.logFatal "❌ Invalid RELAY_INTERVAL: %v" [.err err]], s2)
              | .ok interval =>
                let ev3 := ev2 ++ [.fmtPrintf "⏱️  Relay Interval: %v\n" [.dur interval],
                                   .fmtPrintln "✅ Relayer initialized. Starting relay loop...\n"]
                if interval ≤ 0 then
                  (ev3 ++ [.goPanic "non-positive interval for NewTicker"], s2)
                else
                  let cfg : Config :=
                    { apiURL := apiURL, fromAddress := fromAddress,
                      contractAddr := contractAddr, chainID := chainID,
                      privateKey := privateKey, interval := interval }
                  let run := relayLoop env cfg fuel s2
                  (ev3 ++ run.1, run.2)

end Relayer

namespace DataStream

/-! ## Data model of the firehose -/

/-- The struct `SocialPost`. -/
structure SocialPost where
  Username : String
  Text : String
  Timestamp : String
deriving DecidableEq, Repr

/-- The struct `SentimentPayload`. -/
structure SentimentPayload where
  Username : String
  Text : String
deriving DecidableEq, Repr

/-- One result of `reader.Read()` other than `io.EOF`: a record, or an error that
is not end of file. -/
inductive ReadResult where
  | record (fields : List String)
  | err (msg : String)
deriving DecidableEq, Repr

/-- An operand of a `Printf`-style call, kept unformatted. -/
inductive FmtArg where
  | int (v : Int)
  | str (s : String)
  | strs (ss : List String)
  | bytes (bs : List UInt8)
  | err (e : String)
deriving DecidableEq, Repr

/-- What the firehose goroutine and the bridge do that is visible outside them. -/
inductive Event where
  | fmtPrintln (msg : String)
  | fmtPrintf (format : String) (args : List FmtArg)
  | logPrintln (msg : String)
  | logPrintf (format : String) (args : List FmtArg)
  | logFatal (format : String) (args : List FmtArg)
  | chanSend (post : SocialPost)
  | chanClose
  | sleepRandom (lo hi : Nat)
  | sleep (ms : Nat)
  | httpDo (method url : String) (body : String) (ok : Bool)
deriving DecidableEq, Repr

/-- How the consumer `for post := range ch` ends: the range is over once the
channel is closed and drained; on a channel that is never closed the receive
blocks for good. -/
inductive RangeEnd where
  | closed
  | blocked
deriving DecidableEq, Repr

/-- The counters `rowCount`, `skippedCount`, `errorCount` of the read loop. -/
structure Counters where
  rowCount : Int
  skippedCount : Int
  errorCount : Int
deriving DecidableEq, Repr

/-- The map `colMap`, as an association list; a later write to a key replaces
the earlier one. -/
abbrev ColMap := List (String × Nat)

/-- The lookup `colMap[key]` with its `ok` flag. -/
def ColMap.get (m : ColMap) (key : String) : Option Nat :=
  (m.find? (fun p => p.1 = key)).map (fun p => p.2)

/-- The write `colMap[key] = i`. -/
def ColMap.set (m : ColMap) (key : String) (i : Nat) : ColMap :=
  (key, i) :: m.filter (fun p => p.1 ≠ key)

/-- The predicate `unicode.IsSpace`. -/
def isSpace (c : Char) : Bool :=
  let v := c.val.toNat
  (9 ≤ v && v ≤ 13) || v = 32 || v = 0x85 || v = 0xA0 || v = 0x1680 ||
  (0x2000 ≤ v && v ≤ 0x200A) || v = 0x2028 || v = 0x2029 || v = 0x202F ||
  v = 0x205F || v = 0x3000

/-- The function `strings.TrimSpace`, on well-formed UTF-8 text. -/
def trimSpace (s : String) : String :=
  String.mk ((s.data.dropWhile isSpace).reverse.dropWhile isSpace).reverse

/-- The header clean-up of lines 67-78: strip leading byte-order marks, keep the
runes above 31 and the tab, trim. -/
def cleanHeader (header : String) : String :=
  let noBom := header.data.dropWhile (fun c => c.val.toNat = 0xFEFF)
  trimSpace (String.mk (noBom.filter (fun r => r.val.toNat > 31 || r.val.toNat = 9)))

/-- The loop of lines 82-85. -/
def buildColMap (headers : List String) : ColMap :=
  headers.enum.foldl (fun m p => m.set (trimSpace p.2) p.1) []

/-- The field `record[idx]` when `colMap[key]` exists and `idx < len(record)`. -/
def column (colMap : ColMap) (key : String) (record : List String) : Option String :=
  match colMap.get key with
  | some idx => if idx < record.length then record.get? idx else none
  | none => none

/-- The read loop of `igniteFirehose` (lines 90-169).  `reads` holds what the
successive `reader.Read()` calls return before `io.EOF`; the empty list is end of
file.  `chanReady n` tells whether the `select` of line 159 finds room in the
channel when the row counter is `n`. -/
def readLoop (colMap : ColMap) (chanReady : Int → Bool) :
    List ReadResult → Counters → List Event
  | [], c =>
      [.logPrintf "🏁 Reached end of dataset. Processed %d rows, skipped %d empty rows, %d errors."
          [.int c.rowCount, .int c.skippedCount, .int c.errorCount],
       .chanClose]
  | .err err :: rest, c =>
      let c1 : Counters := { c with errorCount := c.errorCount + 1 }
      let warn : Event :=
        .logPrintf "⚠️ Read error on line: %v (processed %d rows, skipped %d, errors %d)"
          [.err err, .int c1.rowCount, .int c1.skippedCount, .int c1.errorCount]
      if c1.errorCount > 100 then
        [warn, .logPrintf "❌ Too many errors (%d), stopping processing" [.int c1.errorCount]]
      else
        warn :: readLoop colMap chanReady rest c1
  | .record record :: rest, c =>
      if record.length = 0 then
        readLoop colMap chanReady rest { c with skippedCount := c.skippedCount + 1 }
      else if record.all (fun field => trimSpace field = "") then
        readLoop colMap chanReady rest { c with skippedCount := c.skippedCount + 1 }
      else
        let c1 : Counters := { c with rowCount := c.rowCount + 1 }
        let username := (column colMap "user_name" record).getD ""
        let timestamp := (column colMap "date" record).getD ""
        let postText :=
          match column colMap "cleanText" record with
          | some t => trimSpace t
          | none =>
            match column colMap "text" record with
            | some t => trimSpace t
            | none => ""
        if postText = "" then
          readLoop colMap chanReady rest { c1 with skippedCount := c1.skippedCount + 1 }
        else
          let post : SocialPost :=
            { Username := username, Text := postText, Timestamp := timestamp }
          let push : Event :=
            if chanReady c1.rowCount then .chanSend post
            else .logPrintf "⚠️ Channel full, dropping post from @%s" [.str username]
          push :: .sleepRandom 5 55 :: readLoop colMap chanReady rest c1

/-- The function `igniteFirehose` (lines 37-170).  `file` is the outcome of
`os.Open` followed by `io.ReadAll`; `csvRecords` is the reader configured in
lines 56-59, as the list of its results on the given bytes. -/
def igniteFirehose (csvRecords : List UInt8 → List ReadResult) (chanReady : Int → Bool)
    (file : Except String (Except String (List UInt8))) : List Event :=
  match file with
  | .error err =>
      [.logFatal " Failed to open dataset: %v. Did you put it in the /data folder?" [.err err]]
  | .ok (.error err) => [.logFatal "❌ Failed to read file: %v" [.err err]]
  | .ok (.ok fileBytes) =>
    let bom : Bool := match fileBytes with
      | 0xEF :: 0xBB :: 0xBF :: _ => true
      | _ => false
    let stripped := if bom then fileBytes.drop 3 else fileBytes
    let ev0 : List Event :=
      if bom then [.logPrintln "📝 Stripped UTF-8 BOM from CSV file"] else []
    match csvRecords stripped with
    | [] => ev0 ++ [.logFatal "❌ Failed to read header: %v" [.err "EOF"]]
    | .err err :: _ => ev0 ++ [.logFatal "❌ Failed to read header: %v" [.err err]]
    | .record rawHeaders :: rest =>
      let headers := rawHeaders.map cleanHeader
      ev0 ++ [.logPrintf "📊 CSV Headers: %v" [.strs headers]] ++
        readLoop (buildColMap headers) chanReady rest
          { rowCount := 0, skippedCount := 0, errorCount := 0 }

/-- The posts a producer trace puts on the channel, in order. -/
def sentPosts : List Event → List SocialPost
  | [] => []
  | .chanSend post :: rest => post :: sentPosts rest
  | _ :: rest => sentPosts rest

/-- How a `range` over the channel ends for a producer with the given trace. -/
def rangeEnd (producer : List Event) : RangeEnd :=
  if Event.chanClose ∈ producer then .closed else .blocked

/-- What the bridge needs from outside: `json.Marshal`, `http.NewRequest` (only
whether it fails) and `client.Do` over a world `ω`, which returns `resp.Status`. -/
structure BridgeEnv (ω : Type) where
  jsonMarshal : SentimentPayload → Except String String
  newRequest : String → String → String → Except String Unit
  clientDo : String → String → String → ω → Except String String × ω

variable {ω : Type}

/-- The body of the `range` loop of `startBridge` (lines 179-224) for one post. -/
def bridgeStep (env : BridgeEnv ω) (targetURL : String) (post : SocialPost) (w : ω) :
    List Event × ω :=
  let cleanedText := trimSpace post.Text
  if cleanedText.utf8ByteSize < 10 then ([], w)
  else
    let payload : SentimentPayload := { Username := post.Username, Text := cleanedText }
    match env.jsonMarshal payload with
    | .error err => ([.logPrintf "⚠️ JSON Marshal error: %v" [.err err]], w)
    | .ok jsonData =>
      match env.newRequest "POST" targetURL jsonData with
      | .error err => ([.logPrintf "⚠️ Request creation error: %v" [.err err]], w)
      | .ok _ =>
        match env.clientDo "POST" targetURL jsonData w with
        | (.error err, w1) =>
            ([.httpDo "POST" targetURL jsonData false,
              .logPrintf "FastAPI unreachable (Owner B, wake up!): %v" [.err err],
              .sleep 500], w1)
        | (.ok status, w1) =>
            let bytes := cleanedText.toUTF8.toList
            let previewText : List UInt8 :=
              if bytes.length > 20 then bytes.take 20 ++ "...".toUTF8.toList else bytes
            ([.httpDo "POST" targetURL jsonData true,
              .fmtPrintf "✅ [@%s] %s | Status: %s | Score: Processing...\n"
                [.str payload.Username, .bytes previewText, .str status]], w1)

/-- The function `startBridge` (lines 172-228) over the posts it receives.  After
the last post the range ends only on a closed channel, and only then is the
shutdown line printed. -/
def startBridge (env : BridgeEnv ω) (targetURL : String) :
    List SocialPost → RangeEnd → ω → List Event × ω
  | [], .closed, w => ([.fmtPrintln "Firehose shutdown complete."], w)
  | [], .blocked, w => ([], w)
  | post :: rest, e, w =>
      let r := bridgeStep env targetURL post w
      let k := startBridge env targetURL rest e r.2
      (r.1 ++ k.1, k.2)

/-- The function `main` (lines 28-35): the trace of the main goroutine, which runs
the bridge, and the trace of the firehose goroutine. -/
def main (csvRecords : List UInt8 → List ReadResult) (chanReady : Int → Bool)
    (env : BridgeEnv ω) (file : Except String (Except String (List UInt8))) (w : ω) :
    List Event × List Event :=
  let hello : List Event :=
    [.fmtPrintln "🔥 Starting FUD-Fader Data Firehose...",
     .fmtPrintln "📡 Connecting to FastAPI at http://localhost:8000/analyze"]
  let producer := igniteFirehose csvRecords chanReady file
  let bridge := startBridge env "http://localhost:8000/analyze"
    (sentPosts producer) (rangeEnd producer) w
  (hello ++ bridge.1, producer)

end DataStream

namespace Stage1

open DataStream (SocialPost ReadResult Event FmtArg ColMap column)

/-- The loop of lines 48-51 of `src/Stage1/main.go`. -/
def buildColMap (headers : List String) : ColMap :=
  headers.enum.foldl (fun m p => m.set p.2 p.1) []

/-- The read loop of the earlier `igniteFirehose` (`src/Stage1/main.go`, lines
53-87): any error of `reader.Read()`, end of file included, closes the channel.
The send of line 83 blocks until the bridge has taken the post. -/
def readLoop (colMap : ColMap) : List ReadResult → List Event
  | [] => [.logPrintln " Reached end of dataset or read error.", .chanClose]
  | .err _ :: _ => [.logPrintln " Reached end of dataset or read error.", .chanClose]
  | .record record :: rest =>
      let username := (column colMap "user_name" record).getD ""
      let timestamp := (column colMap "date" record).getD ""
      let postText :=
        match column colMap "cleanText" record with
        | some t => t
        | none => (column colMap "text" record).getD ""
      .chanSend { Username := username, Text := postText, Timestamp := timestamp } ::
        .sleepRandom 10 110 :: readLoop colMap rest

/-- The function `igniteFirehose` of `src/Stage1/main.go` (lines 35-88).  `file` is
the outcome of `os.Open`, with what the default `csv.Reader` returns on the file
before `io.EOF`. -/
def igniteFirehose (file : Except String (List ReadResult)) : List Event :=
  match file with
  | .error err =>
      [.logFatal " Failed to open dataset: %v. Did you put it in the /data folder?" [.err err]]
  | .ok [] => [.logFatal "❌ Failed to read header: %v" [.err "EOF"]]
  | .ok (.err err :: _) => [.logFatal "❌ Failed to read header: %v" [.err err]]
  | .ok (.record headers :: rest) => readLoop (buildColMap headers) rest

end Stage1

namespace DataStream

/-- Whether a result of `reader.Read()` is an error (other than end of file). -/
def ReadResult.isErr : ReadResult → Bool
  | .err _ => true
  | .record _ => false

/-- The column map of a dataset whose header is `user_name,text`. -/
def demoColMap : ColMap := buildColMap (["user_name", "text"].map cleanHeader)

/-- What `reader.Read()` returns after the header on a small dataset: a record, a
row of empty fields and another record, then end of file. -/
def soundReads : List ReadResult :=
  [.record ["alice", "market looking strong"], .record ["", ""],
   .record ["bob", "to the moon and back"]]

/-- The counters at the start of the read loop. -/
def zeroCounters : Counters := { rowCount := 0, skippedCount := 0, errorCount := 0 }

/-- A bridge world in which every request is answered with `200 OK`. -/
def okBridge : BridgeEnv Unit where
  jsonMarshal := fun p => .ok (p.Username ++ ":" ++ p.Text)
  newRequest := fun _ _ _ => .ok ()
  clientDo := fun _ _ _ w => (.ok "200 OK", w)

end DataStream

/-! # Vocabulary for the properties of the relay loop -/

namespace Relayer

variable {σ β : Type}

/-- The stages of a relay cycle, each marked in the trace by the call that starts it. -/
inductive Stage where
  | fetch
  | abiParse
  | encode
  | nonce
  | gasPrice
  | sign
  | send
deriving DecidableEq, Repr

/-- The stages in the order the loop body runs them. -/
def Stage.order : List Stage :=
  [.fetch, .abiParse, .encode, .nonce, .gasPrice, .sign, .send]

/-- The stage an event starts, if it starts one. -/
def Event.stage : Event → Option Stage
  | .httpGet _ _ => some .fetch
  | .abiJSON _ _ => some .abiParse
  | .abiPack _ _ _ => some .encode
  | .pendingNonceAt _ _ => some .nonce
  | .suggestGasPrice _ => some .gasPrice
  | .signTx _ _ _ => some .sign
  | .sendTransaction _ _ => some .send
  | _ => none

/-- The stages started in a trace, in order. -/
def stagesOf (trace : List Event) : List Stage := trace.filterMap Event.stage

/-- Whether an event is a call that came back with a failure: for the GET, a
failed request or a status other than 200. -/
def Event.failed : Event → Bool
  | .httpGet _ none => true
  | .httpGet _ (some code) => decide (code ≠ 200)
  | .jsonDecode ok => !ok
  | .abiJSON _ ok => !ok
  | .abiPack _ _ ok => !ok
  | .pendingNonceAt _ res => res.isNone
  | .suggestGasPrice res => res.isNone
  | .signTx _ _ ok => !ok
  | .sendTransaction _ ok => !ok
  | _ => false

/-- Whether an event is a step of the pipeline: a call of some stage, the decoding
of the body, or the construction of a transaction. -/
def Event.isWork : Event → Bool
  | .httpGet _ _ => true
  | .jsonDecode _ => true
  | .abiJSON _ _ => true
  | .abiPack _ _ _ => true
  | .pendingNonceAt _ _ => true
  | .suggestGasPrice _ => true
  | .newTransaction _ => true
  | .signTx _ _ _ => true
  | .sendTransaction _ _ => true
  | _ => false

/-- Whether an event is a call to the blockchain client. -/
def Event.isChainCall : Event → Bool
  | .dial _ _ => true
  | .networkID _ => true
  | .pendingNonceAt _ _ => true
  | .suggestGasPrice _ => true
  | .sendTransaction _ _ => true
  | _ => false

/-- Whether an event builds or signs a transaction. -/
def Event.isTxWork : Event → Bool
  | .newTransaction _ => true
  | .signTx _ _ _ => true
  | _ => false

/-- Whether an event is a `SendTransaction` call. -/
def Event.isSend : Event → Bool
  | .sendTransaction _ _ => true
  | _ => false

/-- Whether an event is a line written with `log.Printf`. -/
def Event.isWarning : Event → Bool
  | .logPrintf _ _ => true
  | _ => false

/-- Whether an event ends the process. -/
def Event.isExit : Event → Bool
  | .logFatal _ _ => true
  | .goPanic _ => true
  | _ => false

/-- The world at the start of cycle `k` of a run that starts in `s`. -/
def stateAt (env : Env σ β) (cfg : Config) (s : σ) : Nat → σ
  | 0 => s
  | k + 1 => (relayCycle env cfg (stateAt env cfg s k)).2

/-- The events of cycle `k` of a run that starts in `s`. -/
def cycleTrace (env : Env σ β) (cfg : Config) (s : σ) (k : Nat) : List Event :=
  (relayCycle env cfg (stateAt env cfg s k)).1

/-! ## A simulated world, for concrete runs -/

/-- A small outside world: the number of ticks so far and the pending sequence
number the node holds for the relayer. -/
structure Sim where
  time : Nat
  pending : Nat
deriving DecidableEq, Repr

/-- What goes wrong in a simulated run, and when (by tick count): the feed and
the node may fail; the library calls on fixed, well-formed arguments do not. -/
structure Script where
  feed : Nat → Except String HttpResponse
  nonceOk : Nat → Bool
  gasOk : Nat → Bool
  sendOk : Nat → Bool

/-- A body with `oracle_score` 75 and `text_preview` "market looking strong". -/
def body75 : String :=
  "\x7b\"oracle_score\": 75, \"community_vibe_score\": 0.5, \"username\": \"alice\", \"text_preview\": \"market looking strong\", \"timestamp\": \"t0\"\x7d"

/-- A body with `oracle_score` 150. -/
def body150 : String :=
  "\x7b\"oracle_score\": 150, \"community_vibe_score\": 0.5, \"username\": \"bob\", \"text_preview\": \"to the moon\", \"timestamp\": \"t1\"\x7d"

/-- A body with `oracle_score` 4611686018427387954, which is `2^62 + 50`. -/
def bodyHuge : String :=
  "\x7b\"oracle_score\": 4611686018427387954, \"community_vibe_score\": 0.5, \"username\": \"eve\", \"text_preview\": \"x\", \"timestamp\": \"t2\"\x7d"

/-- The JSON decoder on the bodies the simulated feed serves; `4602678819172646912`
is the bit pattern of `0.5`. -/
def simDecode (body : String) : Except String SentimentResponse :=
  if body = body75 then
    .ok { OracleScore := 75, CommunityVibeScore := 4602678819172646912, Username := "alice",
          TextPreview := "market looking strong", Timestamp := "t0" }
  else if body = body150 then
    .ok { OracleScore := 150, CommunityVibeScore := 4602678819172646912, Username := "bob",
          TextPreview := "to the moon", Timestamp := "t1" }
  else if body = bodyHuge then
    .ok { OracleScore := 4611686018427387954, CommunityVibeScore := 4602678819172646912,
          Username := "eve", TextPreview := "x", Timestamp := "t2" }
  else .error "invalid character"

/-- A stand-in for the ABI encoder: it keeps the arguments apart, the integer as
its residue modulo `2^256`. -/
def simPack (args : List AbiArg) : List Nat :=
  args.map (fun a => match a with
    | .str s => s.length
    | .bigInt v => (v % 2 ^ 256).toNat)

/-- The value of a hexadecimal digit. -/
def hexDigit (c : Char) : Option Nat :=
  let v := c.val.toNat
  if 48 ≤ v ∧ v ≤ 57 then some (v - 48)
  else if 97 ≤ v ∧ v ≤ 102 then some (v - 87)
  else if 65 ≤ v ∧ v ≤ 70 then some (v - 55)
  else none

/-- The number a string of hexadecimal digits writes, if it is one. -/
def parseHex (hex : String) : Option Nat :=
  hex.data.foldl (fun acc c =>
    match acc, hexDigit c with
    | some n, some d => some (16 * n + d)
    | _, _ => none) (some 0)

/-- The order of the group of secp256k1. -/
def secp256k1N : Nat :=
  0xFFFFFFFFFFFFFFFFFFFFFFFFFFFFFFFEBAAEDCE6AF48A03BBFD25E8CD0364141

/-- The simulated world: the node accepts a transaction when the script lets it
and the transaction carries the pending sequence number, which it then advances. -/
def simEnv (sc : Script) : Env Sim Unit where
  httpGet := fun _ w => (sc.feed w.time, w)
  jsonDecode := simDecode
  abiJSON := fun _ => .ok ()
  abiPack := fun _ _ args => .ok (simPack args)
  pendingNonceAt := fun _ w =>
    if sc.nonceOk w.time then (.ok w.pending, w) else (.error "nonce unavailable", w)
  suggestGasPrice := fun w =>
    if sc.gasOk w.time then (.ok 1000000000, w) else (.error "gas price unavailable", w)
  signTx := fun tx chainID key =>
    .ok [tx.Nonce, chainID.toNat, key]
  sendTransaction := fun stx w =>
    if sc.sendOk w.time && stx.inner.Nonce == w.pending then
      (.ok (), { w with pending := w.pending + 1 })
    else (.error "rejected", w)
  tick := fun _ w => { w with time := w.time + 1 }
  hexToECDSA := fun hex =>
    match parseHex hex with
    | some d =>
        if hex.length = 64 ∧ 0 < d ∧ d < secp256k1N then .ok d
        else .error "invalid length, need 256 bits"
    | none => .error "invalid hex character"
  publicECDSA := fun key => some (key + 1)
  pubkeyToAddress := fun pub => pub + 1000
  dial := fun _ w => (.ok (), w)
  networkID := fun w => (.ok 31337, w)
  hexToAddress := fun hex => hex.length
  newKeyedTransactor := fun _ _ => .ok ()
  parseDuration := fun text => if text = "30s" then .ok 30000000000 else .error "bad duration"

/-- A run in which nothing fails and the feed serves `body75`. -/
def calm : Script where
  feed := fun _ => .ok { StatusCode := 200, Body := body75 }
  nonceOk := fun _ => true
  gasOk := fun _ => true
  sendOk := fun _ => true

/-- The configuration of the simulated runs. -/
def simCfg : Config where
  apiURL := "http://localhost:8000/current"
  fromAddress := 1002
  contractAddr := 42
  chainID := 31337
  privateKey := 1
  interval := 30000000000

/-- The simulated world at start: no tick yet, pending sequence number 7. -/
def sim0 : Sim := { time := 0, pending := 7 }

/-- A run whose feed times out before the first tick and serves `body75` afterwards. -/
def feedDown : Script :=
  { calm with feed := fun t =>
      if t = 0 then .error "context deadline exceeded"
      else .ok { StatusCode := 200, Body := body75 } }

/-- A run whose node rejects the submission made before the first tick. -/
def rejectFirst : Script := { calm with sendOk := fun t => decide (t ≠ 0) }

/-- A run whose feed serves `body150`. -/
def score150 : Script :=
  { calm with feed := fun _ => .ok { StatusCode := 200, Body := body150 } }

/-- A run whose feed serves `bodyHuge`. -/
def scoreHuge : Script :=
  { calm with feed := fun _ => .ok { StatusCode := 200, Body := bodyHuge } }

/-- The snapshot `body75` decodes to. -/
def snap75 : SentimentResponse :=
  { OracleScore := 75, CommunityVibeScore := 4602678819172646912, Username := "alice",
    TextPreview := "market looking strong", Timestamp := "t0" }

/-- Whether every failed call of a trace is followed by exactly one `log.Printf`
line and the wait for the tick, and by nothing else. -/
def haltsAfterFailure : List Event → Bool
  | [] => true
  | e :: rest =>
      (if e.failed then
        match rest with
        | [.logPrintf _ _, .tick] => true
        | _ => false
      else true) && haltsAfterFailure rest

/-- A run whose node does not answer the gas-price query made before the first tick. -/
def gasDown : Script := { calm with gasOk := fun t => decide (t ≠ 0) }

/-- The answer of a pending-nonce query, for an event that is one. -/
def Event.nonceAnswer : Event → Option (Option Nat)
  | .pendingNonceAt _ res => some res
  | _ => none

/-- The snapshot `body150` decodes to. -/
def snap150 : SentimentResponse :=
  { OracleScore := 150, CommunityVibeScore := 4602678819172646912, Username := "bob",
    TextPreview := "to the moon", Timestamp := "t1" }

/-- The snapshot `bodyHuge` decodes to. -/
def snapHuge : SentimentResponse :=
  { OracleScore := 4611686018427387954, CommunityVibeScore := 4602678819172646912,
    Username := "eve", TextPreview := "x", Timestamp := "t2" }

end Relayer

/-! # Theorems -/

set_option maxRecDepth 16384

namespace Relayer

variable {σ β : Type}

theorem wrapInt_of_mem (x : Int) (h0 : -(2 ^ 63) ≤ x) (h1 : x < 2 ^ 63) : wrapInt x = x := by
  unfold wrapInt
  norm_num at h0 h1 ⊢
  omega

theorem wrapInt_idem (x : Int) : wrapInt (wrapInt x) = wrapInt x := by
  unfold wrapInt
  norm_num

theorem sentimentScore_wrap (s : Int) : sentimentScore s = wrapInt (2 * s - 100) := by
  unfold sentimentScore wrapInt
  norm_num
  omega

theorem sentimentScore_of_mem (s : Int) (h0 : -(2 ^ 63) ≤ 2 * s - 100)
    (h1 : 2 * s - 100 < 2 ^ 63) : sentimentScore s = 2 * s - 100 := by
  rw [sentimentScore_wrap, wrapInt_of_mem _ h0 h1]

/-- The four ways `fetchSentiment` returns. -/
theorem fetchSentiment_cases (env : Env σ β) (url : String) (s : σ) :
    (∃ e s1, env.httpGet url s = (.error e, s1) ∧
      fetchSentiment env url s =
        (.error ("HTTP request failed: " ++ e), [.httpGet url none], s1)) ∨
    (∃ resp s1, env.httpGet url s = (.ok resp, s1) ∧ resp.StatusCode ≠ 200 ∧
      fetchSentiment env url s =
        (.error ("API returned status " ++ toString resp.StatusCode),
          [.httpGet url (some resp.StatusCode)], s1)) ∨
    (∃ resp s1 e, env.httpGet url s = (.ok resp, s1) ∧ resp.StatusCode = 200 ∧
      env.jsonDecode resp.Body = .error e ∧
      fetchSentiment env url s =
        (.error ("failed to decode response: " ++ e),
          [.httpGet url (some 200), .jsonDecode false], s1)) ∨
    (∃ resp s1 snap, env.httpGet url s = (.ok resp, s1) ∧ resp.StatusCode = 200 ∧
      env.jsonDecode resp.Body = .ok snap ∧
      fetchSentiment env url s =
        (.ok snap, [.httpGet url (some 200), .jsonDecode true], s1)) := by
  unfold fetchSentiment
  rcases hg : env.httpGet url s with ⟨e | resp, s1⟩
  · left; exact ⟨e, s1, rfl, rfl⟩
  · right
    by_cases hs : resp.StatusCode = 200
    · right
      rcases hd : env.jsonDecode resp.Body with e | snap
      · left; exact ⟨resp, s1, e, rfl, hs, hd, by simp [hs, hd]⟩
      · right; exact ⟨resp, s1, snap, rfl, hs, hd, by simp [hs, hd]⟩
    · left; exact ⟨resp, s1, rfl, hs, by simp [hs]⟩


/-- The paths through the loop body: which call failed, with the events and the
world each path leaves. -/
theorem relayCycle_cases (env : Env σ β) (cfg : Config) (s : σ) :
    (∃ err ev0 s1, fetchSentiment env cfg.apiURL s = (.error err, ev0, s1) ∧
      relayCycle env cfg s =
        (ev0 ++ [.logPrintf "⚠️  Failed to fetch sentiment: %v" [.err err], .tick],
          env.tick cfg.interval s1)) ∨
    (∃ snap ev0 s1, fetchSentiment env cfg.apiURL s = (.ok snap, ev0, s1) ∧
      ((∃ err, env.abiJSON contractABI = .error err ∧
          relayCycle env cfg s =
            (ev0 ++ announce snap ++ [.abiJSON contractABI false,
               .logPrintf "⚠️  Failed to parse ABI: %v" [.err err], .tick],
              env.tick cfg.interval s1)) ∨
       (∃ abi, env.abiJSON contractABI = .ok abi ∧
        ((∃ err, env.abiPack abi "submitSentiment" (packArgs snap) = .error err ∧
            relayCycle env cfg s =
              (ev0 ++ announce snap ++ [.abiJSON contractABI true,
                 .abiPack "submitSentiment" (packArgs snap) false,
                 .logPrintf "⚠️  Failed to encode function call: %v" [.err err], .tick],
                env.tick cfg.interval s1)) ∨
         (∃ data, env.abiPack abi "submitSentiment" (packArgs snap) = .ok data ∧
          ((∃ err s2, env.pendingNonceAt cfg.fromAddress s1 = (.error err, s2) ∧
              relayCycle env cfg s =
                (ev0 ++ announce snap ++ [.abiJSON contractABI true,
                   .abiPack "submitSentiment" (packArgs snap) true] ++
                  [.pendingNonceAt cfg.fromAddress none,
                   .logPrintf "⚠️  Failed to get nonce: %v" [.err err], .tick],
                  env.tick cfg.interval s2)) ∨
           (∃ nonce s2, env.pendingNonceAt cfg.fromAddress s1 = (.ok nonce, s2) ∧
            ((∃ err s3, env.suggestGasPrice s2 = (.error err, s3) ∧
                relayCycle env cfg s =
                  (ev0 ++ announce snap ++ [.abiJSON contractABI true,
                     .abiPack "submitSentiment" (packArgs snap) true] ++
                    [.pendingNonceAt cfg.fromAddress (some nonce), .suggestGasPrice none,
                     .logPrintf "⚠️  Failed to get gas price: %v" [.err err], .tick],
                    env.tick cfg.interval s3)) ∨
             (∃ gasPrice s3, env.suggestGasPrice s2 = (.ok gasPrice, s3) ∧
              ((∃ err, env.signTx (cycleTx cfg nonce gasPrice data) cfg.chainID cfg.privateKey
                    = .error err ∧
                  relayCycle env cfg s =
                    (ev0 ++ announce snap ++ [.abiJSON contractABI true,
                       .abiPack "submitSentiment" (packArgs snap) true] ++
                      [.pendingNonceAt cfg.fromAddress (some nonce),
                       .suggestGasPrice (some gasPrice),
                       .newTransaction (cycleTx cfg nonce gasPrice data)] ++
                      [.signTx (cycleTx cfg nonce gasPrice data) cfg.chainID false,
                       .logPrintf "⚠️  Failed to sign transaction: %v" [.err err], .tick],
                      env.tick cfg.interval s3)) ∨
               (∃ sig, env.signTx (cycleTx cfg nonce gasPrice data) cfg.chainID cfg.privateKey
                    = .ok sig ∧
                ((∃ err s4, env.sendTransaction
                      { inner := cycleTx cfg nonce gasPrice data, sig := sig } s3
                      = (.error err, s4) ∧
                    relayCycle env cfg s =
                      (ev0 ++ announce snap ++ [.abiJSON contractABI true,
                         .abiPack "submitSentiment" (packArgs snap) true] ++
                        [.pendingNonceAt cfg.fromAddress (some nonce),
                         .suggestGasPrice (some gasPrice),
                         .newTransaction (cycleTx cfg nonce gasPrice data)] ++
                        [.signTx (cycleTx cfg nonce gasPrice data) cfg.chainID true,
                         .sendTransaction
                           { inner := cycleTx cfg nonce gasPrice data, sig := sig } false,
                         .logPrintf "⚠️  Failed to send transaction: %v" [.err err], .tick],
                        env.tick cfg.interval s4)) ∨
                 (∃ s4, env.sendTransaction
                      { inner := cycleTx cfg nonce gasPrice data, sig := sig } s3
                      = (.ok (), s4) ∧
                    relayCycle env cfg s =
                      (ev0 ++ announce snap ++ [.abiJSON contractABI true,
                         .abiPack "submitSentiment" (packArgs snap) true] ++
                        [.pendingNonceAt cfg.fromAddress (some nonce),
                         .suggestGasPrice (some gasPrice),
                         .newTransaction (cycleTx cfg nonce gasPrice data)] ++
                        [.signTx (cycleTx cfg nonce gasPrice data) cfg.chainID true,
                         .sendTransaction
                           { inner := cycleTx cfg nonce gasPrice data, sig := sig } true,
                         .fmtPrintf "✅ Transaction sent: %s\n"
                           [.txHash { inner := cycleTx cfg nonce gasPrice data, sig := sig }],
                         .fmtPrintf
                           "   Username: \x27relayer\x27, Text: \x27%s\x27, Score: %d\n"
                           [.str snap.TextPreview, .int (sentimentScore snap.OracleScore)],
                         .tick],
                        env.tick cfg.interval s4)))))))))))))) := by
  unfold relayCycle
  rcases hf : fetchSentiment env cfg.apiURL s with ⟨err | snap, ev0, s1⟩
  · left; exact ⟨err, ev0, s1, rfl, rfl⟩
  right; refine ⟨snap, ev0, s1, rfl, ?_⟩
  rcases ha : env.abiJSON contractABI with err | abi
  · left; exact ⟨err, rfl, by simp [ha]⟩
  right; refine ⟨abi, rfl, ?_⟩
  rcases hp : env.abiPack abi "submitSentiment" (packArgs snap) with err | data
  · left; exact ⟨err, rfl, by simp [ha, hp]⟩
  right; refine ⟨data, rfl, ?_⟩
  rcases hn : env.pendingNonceAt cfg.fromAddress s1 with ⟨err | nonce, s2⟩
  · left; exact ⟨err, s2, rfl, by simp [ha, hp, hn]⟩
  right; refine ⟨nonce, s2, rfl, ?_⟩
  rcases hg : env.suggestGasPrice s2 with ⟨err | gasPrice, s3⟩
  · left; exact ⟨err, s3, rfl, by simp [ha, hp, hn, hg]⟩
  right; refine ⟨gasPrice, s3, rfl, ?_⟩
  rcases hs : env.signTx (cycleTx cfg nonce gasPrice data) cfg.chainID cfg.privateKey
    with err | sig
  · left; exact ⟨err, rfl, by simp [ha, hp, hn, hg, hs]⟩
  right; refine ⟨sig, rfl, ?_⟩
  rcases hx : env.sendTransaction { inner := cycleTx cfg nonce gasPrice data, sig := sig } s3
    with ⟨err | u, s4⟩
  · left; exact ⟨err, s4, rfl, by simp [ha, hp, hn, hg, hs, hx]⟩
  · right; exact ⟨s4, rfl, by simp [ha, hp, hn, hg, hs, hx]⟩

end Relayer

namespace Relayer

variable {σ β : Type}

theorem fetch_ok_events (env : Env σ β) (url : String) (s : σ) (snap : SentimentResponse)
    (ev0 : List Event) (s1 : σ) (h : fetchSentiment env url s = (.ok snap, ev0, s1)) :
    ev0 = [.httpGet url (some 200), .jsonDecode true] := by
  rcases fetchSentiment_cases env url s with ⟨e, t, _, hc⟩ | ⟨r, t, _, _, hc⟩ |
    ⟨r, t, e, _, _, _, hc⟩ | ⟨r, t, sn, _, _, _, hc⟩ <;>
  · rw [hc] at h
    simp at h
    try exact h.2.1.symm

theorem fetch_err_events (env : Env σ β) (url : String) (s : σ) (err : String)
    (ev0 : List Event) (s1 : σ) (h : fetchSentiment env url s = (.error err, ev0, s1)) :
    ev0 = [.httpGet url none] ∨ (∃ code, code ≠ 200 ∧ ev0 = [.httpGet url (some code)]) ∨
      ev0 = [.httpGet url (some 200), .jsonDecode false] := by
  rcases fetchSentiment_cases env url s with ⟨e, t, _, hc⟩ | ⟨r, t, _, hne, hc⟩ |
    ⟨r, t, e, _, _, _, hc⟩ | ⟨r, t, sn, _, _, _, hc⟩
  · rw [hc] at h; simp at h; exact Or.inl h.2.1.symm
  · rw [hc] at h; simp at h; exact Or.inr (Or.inl ⟨r.StatusCode, hne, h.2.1.symm⟩)
  · rw [hc] at h; simp at h; exact Or.inr (Or.inr h.2.1.symm)
  · rw [hc] at h; simp at h

theorem fetch_error_iff (env : Env σ β) (url : String) (s : σ) :
    (∃ err, (fetchSentiment env url s).1 = .error err) ↔
      ((∃ e, (env.httpGet url s).1 = .error e) ∨
       (∃ resp, (env.httpGet url s).1 = .ok resp ∧
          (resp.StatusCode ≠ 200 ∨ ∃ e, env.jsonDecode resp.Body = .error e))) := by
  rcases fetchSentiment_cases env url s with ⟨e, t, hg, hc⟩ | ⟨r, t, hg, hne, hc⟩ |
    ⟨r, t, e, hg, hs, hd, hc⟩ | ⟨r, t, sn, hg, hs, hd, hc⟩
  · simp [hc, hg]
  · simp [hc, hg, hne]
  · simp [hc, hg, hs, hd]
  · simp [hc, hg, hs, hd]

theorem fetch_state (env : Env σ β) (url : String) (s : σ) :
    (fetchSentiment env url s).2.2 = (env.httpGet url s).2 := by
  rcases fetchSentiment_cases env url s with ⟨e, t, hg, hc⟩ | ⟨r, t, hg, hne, hc⟩ |
    ⟨r, t, e, hg, hs, hd, hc⟩ | ⟨r, t, sn, hg, hs, hd, hc⟩ <;>
  simp [hc, hg]

theorem relayLoop_succ (env : Env σ β) (cfg : Config) (fuel : Nat) (s : σ) :
    relayLoop env cfg (fuel + 1) s =
      ((relayCycle env cfg s).1 ++ (relayLoop env cfg fuel (relayCycle env cfg s).2).1,
        (relayLoop env cfg fuel (relayCycle env cfg s).2).2) := rfl

theorem relayCycle_head (env : Env σ β) (cfg : Config) (s : σ) :
    ∃ status rest, (relayCycle env cfg s).1 = .httpGet cfg.apiURL status :: rest := by
  rcases relayCycle_cases env cfg s with
    ⟨err, ev0, s1, hf, hc⟩ |
    ⟨snap, ev0, s1, hf,
      ⟨err, ha, hc⟩ |
      ⟨abi, ha,
        ⟨err, hp, hc⟩ |
        ⟨data, hp,
          ⟨err, s2, hn, hc⟩ |
          ⟨nonce, s2, hn,
            ⟨err, s3, hg, hc⟩ |
            ⟨gasPrice, s3, hg,
              ⟨err, hs, hc⟩ |
              ⟨sig, hs,
                ⟨err, s4, hx, hc⟩ | ⟨s4, hx, hc⟩⟩⟩⟩⟩⟩⟩
  · rcases fetch_err_events env _ s err ev0 s1 hf with h | ⟨c, _, h⟩ | h <;>
      simp [hc, h]
  all_goals
    simp [hc, fetch_ok_events env _ s snap ev0 s1 hf]

end Relayer

namespace Relayer

variable {σ β : Type}

/-- C1: for an oracle score `s` with `0 ≤ s ≤ 100` that a cycle fetched, the
`sentimentScore` of line 125 equals `2*s - 100` and lies in `[-100, 100]`, and it is
the value the cycle reports as converted; 0 maps to -100, 50 to 0 and 100 to 100. -/
theorem C1_sentimentScore_linear (env : Env σ β) (cfg : Config) (w : σ)
    (snap : SentimentResponse) (ev0 : List Event) (w1 : σ)
    (hfetch : fetchSentiment env cfg.apiURL w = (.ok snap, ev0, w1))
    (h0 : 0 ≤ snap.OracleScore) (h1 : snap.OracleScore ≤ 100) :
    sentimentScore snap.OracleScore = 2 * snap.OracleScore - 100 ∧
    -100 ≤ sentimentScore snap.OracleScore ∧ sentimentScore snap.OracleScore ≤ 100 ∧
    Event.fmtPrintf "🔄 Converting to on-chain format: %d (range: -100 to 100)\n"
        [.int (2 * snap.OracleScore - 100)] ∈ (relayCycle env cfg w).1 ∧
    sentimentScore 0 = -100 ∧ sentimentScore 50 = 0 ∧ sentimentScore 100 = 100 := by
  have hlin : sentimentScore snap.OracleScore = 2 * snap.OracleScore - 100 :=
    sentimentScore_of_mem _ (by norm_num; omega) (by norm_num; omega)
  refine ⟨hlin, by omega, by omega, ?_, by decide, by decide, by decide⟩
  rcases relayCycle_cases env cfg w with
    ⟨err, ev0', s1, hf, hc⟩ |
    ⟨snap', ev0', s1, hf,
      ⟨err, ha, hc⟩ |
      ⟨abi, ha,
        ⟨err, hp, hc⟩ |
        ⟨data, hp,
          ⟨err, s2, hn, hc⟩ |
          ⟨nonce, s2, hn,
            ⟨err, s3, hg, hc⟩ |
            ⟨gasPrice, s3, hg,
              ⟨err, hs, hc⟩ |
              ⟨sig, hs,
                ⟨err, s4, hx, hc⟩ | ⟨s4, hx, hc⟩⟩⟩⟩⟩⟩⟩
  · rw [hfetch] at hf; simp at hf
  all_goals
    rw [hfetch] at hf
    simp only [Prod.mk.injEq, Except.ok.injEq] at hf
    obtain ⟨rfl, rfl, rfl⟩ := hf
    simp [hc, announce, hlin]

/-- C1 at the simulated feed: the fetched score 75 becomes 50. -/
theorem C1_sentimentScore_linear_witness :
    fetchSentiment (simEnv calm) simCfg.apiURL sim0 =
      (.ok snap75, [.httpGet simCfg.apiURL (some 200), .jsonDecode true], sim0) ∧
    sentimentScore snap75.OracleScore = 2 * snap75.OracleScore - 100 ∧
    -100 ≤ sentimentScore snap75.OracleScore ∧ sentimentScore snap75.OracleScore ≤ 100 ∧
    Event.fmtPrintf "🔄 Converting to on-chain format: %d (range: -100 to 100)\n"
        [.int (2 * snap75.OracleScore - 100)] ∈ (relayCycle (simEnv calm) simCfg sim0).1 ∧
    sentimentScore 0 = -100 ∧ sentimentScore 50 = 0 ∧ sentimentScore 100 = 100 :=
  ⟨rfl, C1_sentimentScore_linear (simEnv calm) simCfg sim0 snap75
    [.httpGet simCfg.apiURL (some 200), .jsonDecode true] sim0 rfl (by decide) (by decide)⟩

end Relayer

namespace Relayer

variable {σ β : Type}

/-- C2: a cycle in which `fetchSentiment` returns an error (the request failed or
timed out, the status is not 200, or the body does not decode) consists of the
fetch, one warning and the wait for the tick: it makes no call to the blockchain
client, builds and signs no transaction, and the loop goes on with a new cycle,
which starts by fetching again. -/
theorem C2_fetch_error_skips_cycle (env : Env σ β) (cfg : Config) (s : σ) (err : String)
    (ev0 : List Event) (s1 : σ)
    (hfetch : fetchSentiment env cfg.apiURL s = (.error err, ev0, s1)) :
    ((∃ e, (env.httpGet cfg.apiURL s).1 = .error e) ∨
      (∃ resp, (env.httpGet cfg.apiURL s).1 = .ok resp ∧
        (resp.StatusCode ≠ 200 ∨ ∃ e, env.jsonDecode resp.Body = .error e))) ∧
    relayCycle env cfg s =
      (ev0 ++ [.logPrintf "⚠️  Failed to fetch sentiment: %v" [.err err], .tick],
        env.tick cfg.interval s1) ∧
    (relayCycle env cfg s).1.countP Event.isChainCall = 0 ∧
    (relayCycle env cfg s).1.countP Event.isTxWork = 0 ∧
    (relayCycle env cfg s).1.countP Event.isWarning = 1 ∧
    (relayCycle env cfg s).1.countP Event.isExit = 0 ∧
    (∀ fuel, (relayLoop env cfg (fuel + 1) s).1 =
      (relayCycle env cfg s).1 ++ (relayLoop env cfg fuel (env.tick cfg.interval s1)).1) ∧
    (∃ status rest,
      (relayCycle env cfg (env.tick cfg.interval s1)).1 = .httpGet cfg.apiURL status :: rest) := by
  have hcause := (fetch_error_iff env cfg.apiURL s).mp ⟨err, by rw [hfetch]⟩
  have hc : relayCycle env cfg s =
      (ev0 ++ [.logPrintf "⚠️  Failed to fetch sentiment: %v" [.err err], .tick],
        env.tick cfg.interval s1) := by
    unfold relayCycle
    rw [hfetch]
  refine ⟨hcause, hc, ?_, ?_, ?_, ?_, ?_, relayCycle_head env cfg _⟩
  · rcases fetch_err_events env _ s err ev0 s1 hfetch with h | ⟨c, _, h⟩ | h <;>
      simp [hc, h, Event.isChainCall]
  · rcases fetch_err_events env _ s err ev0 s1 hfetch with h | ⟨c, _, h⟩ | h <;>
      simp [hc, h, Event.isTxWork]
  · rcases fetch_err_events env _ s err ev0 s1 hfetch with h | ⟨c, _, h⟩ | h <;>
      simp [hc, h, Event.isWarning]
  · rcases fetch_err_events env _ s err ev0 s1 hfetch with h | ⟨c, _, h⟩ | h <;>
      simp [hc, h, Event.isExit]
  · intro fuel
    rw [relayLoop_succ, hc]

/-- C2 at the simulated feed that times out before the first tick. -/
theorem C2_fetch_error_skips_cycle_witness :
    relayCycle (simEnv feedDown) simCfg sim0 =
      ([.httpGet simCfg.apiURL none,
        .logPrintf "⚠️  Failed to fetch sentiment: %v"
          [.err "HTTP request failed: context deadline exceeded"], .tick],
        { time := 1, pending := 7 }) ∧
    (relayLoop (simEnv feedDown) simCfg 2 sim0).1 =
      (relayCycle (simEnv feedDown) simCfg sim0).1 ++
        (relayLoop (simEnv feedDown) simCfg 1 { time := 1, pending := 7 }).1 :=
  have h := C2_fetch_error_skips_cycle (simEnv feedDown) simCfg sim0
    "HTTP request failed: context deadline exceeded" [.httpGet simCfg.apiURL none] sim0 rfl
  ⟨h.2.1, h.2.2.2.2.2.2.1 1⟩

end Relayer

namespace Relayer

variable {σ β : Type}

theorem haltsAfterFailure_split (l : List Event) (h : haltsAfterFailure l = true)
    (pre : List Event) (e : Event) (post : List Event) (hl : l = pre ++ e :: post)
    (hf : e.failed = true) : ∃ fmt args, post = [.logPrintf fmt args, .tick] := by
  induction pre generalizing l with
  | nil =>
    subst hl
    simp only [List.nil_append, haltsAfterFailure, hf, if_true, Bool.and_eq_true] at h
    have h1 := h.1
    split at h1
    · exact ⟨_, _, rfl⟩
    · simp at h1
  | cons a pre ih =>
    subst hl
    simp only [List.cons_append, haltsAfterFailure, Bool.and_eq_true] at h
    exact ih _ h.2 rfl

theorem relayCycle_halts (env : Env σ β) (cfg : Config) (s : σ) :
    haltsAfterFailure (relayCycle env cfg s).1 = true := by
  rcases relayCycle_cases env cfg s with
    ⟨err, ev0, s1, hf, hc⟩ |
    ⟨snap, ev0, s1, hf,
      ⟨err, ha, hc⟩ |
      ⟨abi, ha,
        ⟨err, hp, hc⟩ |
        ⟨data, hp,
          ⟨err, s2, hn, hc⟩ |
          ⟨nonce, s2, hn,
            ⟨err, s3, hg, hc⟩ |
            ⟨gasPrice, s3, hg,
              ⟨err, hs, hc⟩ |
              ⟨sig, hs,
                ⟨err, s4, hx, hc⟩ | ⟨s4, hx, hc⟩⟩⟩⟩⟩⟩⟩
  · rcases fetch_err_events env _ s err ev0 s1 hf with h | ⟨c, hne, h⟩ | h
    · simp [hc, h, haltsAfterFailure, Event.failed]
    · simp [hc, h, haltsAfterFailure, Event.failed, hne]
    · simp [hc, h, haltsAfterFailure, Event.failed]
  all_goals
    simp [hc, fetch_ok_events env _ s snap ev0 s1 hf, haltsAfterFailure, Event.failed, announce]

theorem relayCycle_stages (env : Env σ β) (cfg : Config) (s : σ) :
    stagesOf (relayCycle env cfg s).1 <+: Stage.order := by
  rcases relayCycle_cases env cfg s with
    ⟨err, ev0, s1, hf, hc⟩ |
    ⟨snap, ev0, s1, hf,
      ⟨err, ha, hc⟩ |
      ⟨abi, ha,
        ⟨err, hp, hc⟩ |
        ⟨data, hp,
          ⟨err, s2, hn, hc⟩ |
          ⟨nonce, s2, hn,
            ⟨err, s3, hg, hc⟩ |
            ⟨gasPrice, s3, hg,
              ⟨err, hs, hc⟩ |
              ⟨sig, hs,
                ⟨err, s4, hx, hc⟩ | ⟨s4, hx, hc⟩⟩⟩⟩⟩⟩⟩
  · rcases fetch_err_events env _ s err ev0 s1 hf with h | ⟨c, hne, h⟩ | h <;>
      simp [hc, h, stagesOf, Event.stage, Stage.order, List.prefix_cons_iff]
  all_goals
    simp [hc, fetch_ok_events env _ s snap ev0 s1 hf, stagesOf, Event.stage, Stage.order,
      announce, List.prefix_cons_iff]

theorem relayCycle_no_exit (env : Env σ β) (cfg : Config) (s : σ) :
    ∀ e ∈ (relayCycle env cfg s).1, e.isExit = false := by
  rcases relayCycle_cases env cfg s with
    ⟨err, ev0, s1, hf, hc⟩ |
    ⟨snap, ev0, s1, hf,
      ⟨err, ha, hc⟩ |
      ⟨abi, ha,
        ⟨err, hp, hc⟩ |
        ⟨data, hp,
          ⟨err, s2, hn, hc⟩ |
          ⟨nonce, s2, hn,
            ⟨err, s3, hg, hc⟩ |
            ⟨gasPrice, s3, hg,
              ⟨err, hs, hc⟩ |
              ⟨sig, hs,
                ⟨err, s4, hx, hc⟩ | ⟨s4, hx, hc⟩⟩⟩⟩⟩⟩⟩
  · rcases fetch_err_events env _ s err ev0 s1 hf with h | ⟨c, hne, h⟩ | h <;>
      simp [hc, h, Event.isExit]
  all_goals
    simp [hc, fetch_ok_events env _ s snap ev0 s1 hf, Event.isExit, announce]

theorem relayCycle_last (env : Env σ β) (cfg : Config) (s : σ) :
    (relayCycle env cfg s).1.getLast? = some .tick := by
  rcases relayCycle_cases env cfg s with
    ⟨err, ev0, s1, hf, hc⟩ |
    ⟨snap, ev0, s1, hf,
      ⟨err, ha, hc⟩ |
      ⟨abi, ha,
        ⟨err, hp, hc⟩ |
        ⟨data, hp,
          ⟨err, s2, hn, hc⟩ |
          ⟨nonce, s2, hn,
            ⟨err, s3, hg, hc⟩ |
            ⟨gasPrice, s3, hg,
              ⟨err, hs, hc⟩ |
              ⟨sig, hs,
                ⟨err, s4, hx, hc⟩ | ⟨s4, hx, hc⟩⟩⟩⟩⟩⟩⟩
  all_goals
    simp [hc, List.getLast?_append]

/-- C7: in every relay cycle the stages start in the order fetch, ABI parse, call
encoding, nonce query, gas-price query, signing, submission, each at most once;
a call that fails is followed only by one log line and the wait for the tick, so
no later stage runs; nothing ends the process, and the loop goes on with the next
cycle, which starts from the fetch.  Stage by stage, with failure as the outside
world reports it: when a stage fails after the earlier ones succeeded, the cycle
is exactly the events up to that call, one warning and the tick, and it leaves
the world that the failed call returned, advanced by one wait on the ticker. -/
theorem C7_failure_abandons_cycle (env : Env σ β) (cfg : Config) (s : σ) :
    stagesOf (relayCycle env cfg s).1 <+: Stage.order ∧
    Stage.order.Nodup ∧
    (∀ pre e post, (relayCycle env cfg s).1 = pre ++ e :: post → e.failed = true →
      (∃ fmt args, post = [.logPrintf fmt args, .tick]) ∧ ∀ x ∈ post, x.isWork = false) ∧
    (∀ e ∈ (relayCycle env cfg s).1, e.isExit = false) ∧
    (relayCycle env cfg s).1.getLast? = some .tick ∧
    (∀ fuel, relayLoop env cfg (fuel + 1) s =
      ((relayCycle env cfg s).1 ++ (relayLoop env cfg fuel (relayCycle env cfg s).2).1,
        (relayLoop env cfg fuel (relayCycle env cfg s).2).2)) ∧
    (∃ status rest,
      (relayCycle env cfg (relayCycle env cfg s).2).1 = .httpGet cfg.apiURL status :: rest) ∧
    (∀ err ev0 s1, fetchSentiment env cfg.apiURL s = (.error err, ev0, s1) →
      relayCycle env cfg s =
        (ev0 ++ [.logPrintf "⚠️  Failed to fetch sentiment: %v" [.err err], .tick],
          env.tick cfg.interval s1)) ∧
    (∀ snap ev0 s1 err, fetchSentiment env cfg.apiURL s = (.ok snap, ev0, s1) →
      env.abiJSON contractABI = .error err →
      relayCycle env cfg s =
        (ev0 ++ announce snap ++ [.abiJSON contractABI false,
           .logPrintf "⚠️  Failed to parse ABI: %v" [.err err], .tick],
          env.tick cfg.interval s1)) ∧
    (∀ snap ev0 s1 abi err, fetchSentiment env cfg.apiURL s = (.ok snap, ev0, s1) →
      env.abiJSON contractABI = .ok abi →
      env.abiPack abi "submitSentiment" (packArgs snap) = .error err →
      relayCycle env cfg s =
        (ev0 ++ announce snap ++ [.abiJSON contractABI true,
           .abiPack "submitSentiment" (packArgs snap) false,
           .logPrintf "⚠️  Failed to encode function call: %v" [.err err], .tick],
          env.tick cfg.interval s1)) ∧
    (∀ snap ev0 s1 abi data err s2, fetchSentiment env cfg.apiURL s = (.ok snap, ev0, s1) →
      env.abiJSON contractABI = .ok abi →
      env.abiPack abi "submitSentiment" (packArgs snap) = .ok data →
      env.pendingNonceAt cfg.fromAddress s1 = (.error err, s2) →
      relayCycle env cfg s =
        (ev0 ++ announce snap ++ [.abiJSON contractABI true,
           .abiPack "submitSentiment" (packArgs snap) true,
           .pendingNonceAt cfg.fromAddress none,
           .logPrintf "⚠️  Failed to get nonce: %v" [.err err], .tick],
          env.tick cfg.interval s2)) ∧
    (∀ snap ev0 s1 abi data nonce s2 err s3,
      fetchSentiment env cfg.apiURL s = (.ok snap, ev0, s1) →
      env.abiJSON contractABI = .ok abi →
      env.abiPack abi "submitSentiment" (packArgs snap) = .ok data →
      env.pendingNonceAt cfg.fromAddress s1 = (.ok nonce, s2) →
      env.suggestGasPrice s2 = (.error err, s3) →
      relayCycle env cfg s =
        (ev0 ++ announce snap ++ [.abiJSON contractABI true,
           .abiPack "submitSentiment" (packArgs snap) true,
           .pendingNonceAt cfg.fromAddress (some nonce), .suggestGasPrice none,
           .logPrintf "⚠️  Failed to get gas price: %v" [.err err], .tick],
          env.tick cfg.interval s3)) ∧
    (∀ snap ev0 s1 abi data nonce s2 gasPrice s3 err,
      fetchSentiment env cfg.apiURL s = (.ok snap, ev0, s1) →
      env.abiJSON contractABI = .ok abi →
      env.abiPack abi "submitSentiment" (packArgs snap) = .ok data →
      env.pendingNonceAt cfg.fromAddress s1 = (.ok nonce, s2) →
      env.suggestGasPrice s2 = (.ok gasPrice, s3) →
      env.signTx (cycleTx cfg nonce gasPrice data) cfg.chainID cfg.privateKey = .error err →
      relayCycle env cfg s =
        (ev0 ++ announce snap ++ [.abiJSON contractABI true,
           .abiPack "submitSentiment" (packArgs snap) true,
           .pendingNonceAt cfg.fromAddress (some nonce), .suggestGasPrice (some gasPrice),
           .newTransaction (cycleTx cfg nonce gasPrice data),
           .signTx (cycleTx cfg nonce gasPrice data) cfg.chainID false,
           .logPrintf "⚠️  Failed to sign transaction: %v" [.err err], .tick],
          env.tick cfg.interval s3)) ∧
    (∀ snap ev0 s1 abi data nonce s2 gasPrice s3 sig err s4,
      fetchSentiment env cfg.apiURL s = (.ok snap, ev0, s1) →
      env.abiJSON contractABI = .ok abi →
      env.abiPack abi "submitSentiment" (packArgs snap) = .ok data →
      env.pendingNonceAt cfg.fromAddress s1 = (.ok nonce, s2) →
      env.suggestGasPrice s2 = (.ok gasPrice, s3) →
      env.signTx (cycleTx cfg nonce gasPrice data) cfg.chainID cfg.privateKey = .ok sig →
      env.sendTransaction { inner := cycleTx cfg nonce gasPrice data, sig := sig } s3
        = (.error err, s4) →
      relayCycle env cfg s =
        (ev0 ++ announce snap ++ [.abiJSON contractABI true,
           .abiPack "submitSentiment" (packArgs snap) true,
           .pendingNonceAt cfg.fromAddress (some nonce), .suggestGasPrice (some gasPrice),
           .newTransaction (cycleTx cfg nonce gasPrice data),
           .signTx (cycleTx cfg nonce gasPrice data) cfg.chainID true,
           .sendTransaction { inner := cycleTx cfg nonce gasPrice data, sig := sig } false,
           .logPrintf "⚠️  Failed to send transaction: %v" [.err err], .tick],
          env.tick cfg.interval s4)) := by
  refine ⟨relayCycle_stages env cfg s, by decide, ?_, relayCycle_no_exit env cfg s,
    relayCycle_last env cfg s, fun fuel => relayLoop_succ env cfg fuel s,
    relayCycle_head env cfg _, ?_, ?_, ?_, ?_, ?_, ?_, ?_⟩
  · intro pre e post hl hf
    obtain ⟨fmt, args, hpost⟩ :=
      haltsAfterFailure_split _ (relayCycle_halts env cfg s) pre e post hl hf
    refine ⟨⟨fmt, args, hpost⟩, ?_⟩
    subst hpost
    simp [Event.isWork]
  · intro err ev0 s1 hf
    unfold relayCycle
    rw [hf]
  · intro snap ev0 s1 err hf ha
    unfold relayCycle
    rw [hf]
    simp [ha]
  · intro snap ev0 s1 abi err hf ha hp
    unfold relayCycle
    rw [hf]
    simp [ha, hp]
  · intro snap ev0 s1 abi data err s2 hf ha hp hn
    unfold relayCycle
    rw [hf]
    simp [ha, hp, hn]
  · intro snap ev0 s1 abi data nonce s2 err s3 hf ha hp hn hg
    unfold relayCycle
    rw [hf]
    simp [ha, hp, hn, hg]
  · intro snap ev0 s1 abi data nonce s2 gasPrice s3 err hf ha hp hn hg hs
    unfold relayCycle
    rw [hf]
    simp [ha, hp, hn, hg, hs]
  · intro snap ev0 s1 abi data nonce s2 gasPrice s3 sig err s4 hf ha hp hn hg hs hx
    unfold relayCycle
    rw [hf]
    simp [ha, hp, hn, hg, hs, hx]

/-- C7 at two simulated nodes.  One does not answer the first gas-price query:
the cycle is the events up to that query, one warning and the tick, it leaves the
world one tick later with the pending number untouched, and the next cycle runs
all seven stages from the fetch.  The other rejects the first submission: the
cycle ends with the rejected submission, one warning and the tick, and leaves the
world one tick later. -/
theorem C7_failure_abandons_cycle_witness :
    (simEnv gasDown).suggestGasPrice sim0 = (.error "gas price unavailable", sim0) ∧
    relayCycle (simEnv gasDown) simCfg sim0 =
      ([Event.httpGet simCfg.apiURL (some 200), Event.jsonDecode true] ++ announce snap75 ++
        [Event.abiJSON contractABI true,
         Event.abiPack "submitSentiment" (packArgs snap75) true,
         Event.pendingNonceAt simCfg.fromAddress (some 7), Event.suggestGasPrice none,
         Event.logPrintf "⚠️  Failed to get gas price: %v" [FmtArg.err "gas price unavailable"],
         Event.tick],
        { time := 1, pending := 7 }) ∧
    stagesOf (relayCycle (simEnv gasDown) simCfg (relayCycle (simEnv gasDown) simCfg sim0).2).1 =
      Stage.order ∧
    (simEnv rejectFirst).sendTransaction
        { inner := cycleTx simCfg 7 1000000000 (simPack (packArgs snap75)),
          sig := [7, 31337, 1] } sim0 = (.error "rejected", sim0) ∧
    relayCycle (simEnv rejectFirst) simCfg sim0 =
      ([Event.httpGet simCfg.apiURL (some 200), Event.jsonDecode true] ++ announce snap75 ++
        [Event.abiJSON contractABI true,
         Event.abiPack "submitSentiment" (packArgs snap75) true,
         Event.pendingNonceAt simCfg.fromAddress (some 7),
         Event.suggestGasPrice (some 1000000000),
         Event.newTransaction (cycleTx simCfg 7 1000000000 (simPack (packArgs snap75))),
         Event.signTx (cycleTx simCfg 7 1000000000 (simPack (packArgs snap75)))
           simCfg.chainID true,
         Event.sendTransaction
           { inner := cycleTx simCfg 7 1000000000 (simPack (packArgs snap75)),
             sig := [7, 31337, 1] } false,
         Event.logPrintf "⚠️  Failed to send transaction: %v" [FmtArg.err "rejected"],
         Event.tick],
        { time := 1, pending := 7 }) :=
  ⟨rfl,
   (C7_failure_abandons_cycle (simEnv gasDown) simCfg sim0).2.2.2.2.2.2.2.2.2.2.2.1
      snap75 [Event.httpGet simCfg.apiURL (some 200), Event.jsonDecode true] sim0 ()
      (simPack (packArgs snap75)) 7 sim0 "gas price unavailable" sim0 rfl rfl rfl rfl rfl,
   by decide,
   rfl,
   (C7_failure_abandons_cycle (simEnv rejectFirst) simCfg sim0).2.2.2.2.2.2.2.2.2.2.2.2.2
      snap75 [Event.httpGet simCfg.apiURL (some 200), Event.jsonDecode true] sim0 ()
      (simPack (packArgs snap75)) 7 sim0 1000000000 sim0 [7, 31337, 1] "rejected" sim0
      rfl rfl rfl rfl rfl rfl rfl⟩

end Relayer

namespace Relayer

variable {σ β : Type}

/-- C5: a relay cycle calls `SendTransaction` at most once; the signed transaction
it passes is the transaction built in that cycle with the signature obtained in
that cycle; and when the fetch, the ABI parse, the call encoding, the nonce query,
the gas-price query and the signing all succeed, it calls it exactly once: the
cycle records one submission, with the outcome the node gave for that signed
transaction in the world after the gas-price query, and it leaves the world that
this call returned, advanced by one wait on the ticker.  A cycle that records no
submission leaves a world reached by the fetch, the nonce query and the gas-price
query alone, advanced by one wait on the ticker. -/
theorem C5_one_send_per_cycle (env : Env σ β) (cfg : Config) (s : σ) :
    (relayCycle env cfg s).1.countP Event.isSend ≤ 1 ∧
    (∀ stx ok, Event.sendTransaction stx ok ∈ (relayCycle env cfg s).1 →
      Event.newTransaction stx.inner ∈ (relayCycle env cfg s).1 ∧
      Event.signTx stx.inner cfg.chainID true ∈ (relayCycle env cfg s).1 ∧
      env.signTx stx.inner cfg.chainID cfg.privateKey = .ok stx.sig ∧
      ∃ s2 s3, env.suggestGasPrice s2 = (.ok stx.inner.GasPrice, s3) ∧
        ok = (env.sendTransaction stx s3).1.toBool ∧
        (relayCycle env cfg s).2 = env.tick cfg.interval (env.sendTransaction stx s3).2) ∧
    (∀ snap ev0 s1 abi data nonce s2 gasPrice s3 sig,
      fetchSentiment env cfg.apiURL s = (.ok snap, ev0, s1) →
      env.abiJSON contractABI = .ok abi →
      env.abiPack abi "submitSentiment" (packArgs snap) = .ok data →
      env.pendingNonceAt cfg.fromAddress s1 = (.ok nonce, s2) →
      env.suggestGasPrice s2 = (.ok gasPrice, s3) →
      env.signTx (cycleTx cfg nonce gasPrice data) cfg.chainID cfg.privateKey = .ok sig →
      (relayCycle env cfg s).1.filter Event.isSend =
        [.sendTransaction { inner := cycleTx cfg nonce gasPrice data, sig := sig }
          (env.sendTransaction
            { inner := cycleTx cfg nonce gasPrice data, sig := sig } s3).1.toBool] ∧
      (relayCycle env cfg s).2 =
        env.tick cfg.interval
          (env.sendTransaction { inner := cycleTx cfg nonce gasPrice data, sig := sig } s3).2) ∧
    ((relayCycle env cfg s).1.countP Event.isSend = 0 →
      (relayCycle env cfg s).2 = env.tick cfg.interval (env.httpGet cfg.apiURL s).2 ∨
      (relayCycle env cfg s).2 = env.tick cfg.interval
        (env.pendingNonceAt cfg.fromAddress (env.httpGet cfg.apiURL s).2).2 ∨
      (relayCycle env cfg s).2 = env.tick cfg.interval
        (env.suggestGasPrice
          (env.pendingNonceAt cfg.fromAddress (env.httpGet cfg.apiURL s).2).2).2) := by
  refine ⟨?_, ?_, ?_, ?_⟩
  · rcases relayCycle_cases env cfg s with
      ⟨err, ev0, s1, hf, hc⟩ |
      ⟨snap, ev0, s1, hf,
        ⟨err, ha, hc⟩ |
        ⟨abi, ha,
          ⟨err, hp, hc⟩ |
          ⟨data, hp,
            ⟨err, s2, hn, hc⟩ |
            ⟨nonce, s2, hn,
              ⟨err, s3, hg, hc⟩ |
              ⟨gasPrice, s3, hg,
                ⟨err, hs, hc⟩ |
                ⟨sig, hs,
                  ⟨err, s4, hx, hc⟩ | ⟨s4, hx, hc⟩⟩⟩⟩⟩⟩⟩
    · rcases fetch_err_events env _ s err ev0 s1 hf with h | ⟨c, hne, h⟩ | h <;>
        simp [hc, h, Event.isSend]
    all_goals
      simp [hc, fetch_ok_events env _ s snap ev0 s1 hf, Event.isSend, announce]
  · intro stx ok hmem
    rcases relayCycle_cases env cfg s with
      ⟨err, ev0, s1, hf, hc⟩ |
      ⟨snap, ev0, s1, hf,
        ⟨err, ha, hc⟩ |
        ⟨abi, ha,
          ⟨err, hp, hc⟩ |
          ⟨data, hp,
            ⟨err, s2, hn, hc⟩ |
            ⟨nonce, s2, hn,
              ⟨err, s3, hg, hc⟩ |
              ⟨gasPrice, s3, hg,
                ⟨err, hs, hc⟩ |
                ⟨sig, hs,
                  ⟨err, s4, hx, hc⟩ | ⟨s4, hx, hc⟩⟩⟩⟩⟩⟩⟩
    · rcases fetch_err_events env _ s err ev0 s1 hf with h | ⟨c, hne, h⟩ | h <;>
        simp [hc, h] at hmem
    all_goals
      rw [hc] at hmem ⊢
      simp [fetch_ok_events env _ s snap ev0 s1 hf, announce] at hmem ⊢
    all_goals
      obtain ⟨rfl, rfl⟩ := hmem
      refine ⟨rfl, hs, s2, s3, hg, ?_, ?_⟩ <;> simp [hx, Except.toBool]
  · intro snap ev0 s1 abi data nonce s2 gasPrice s3 sig hf ha hp hn hg hs
    have hev := fetch_ok_events env _ s snap ev0 s1 hf
    unfold relayCycle
    rw [hf]
    simp only [ha, hp, hn, hg, hs]
    rcases hx : env.sendTransaction { inner := cycleTx cfg nonce gasPrice data, sig := sig } s3
      with ⟨err | u, s4⟩
    · simp [hev, announce, Event.isSend, Except.toBool]
    · simp [hev, announce, Event.isSend, Except.toBool]
  · intro hnone
    have hst := fetch_state env cfg.apiURL s
    rcases relayCycle_cases env cfg s with
      ⟨err, ev0, s1, hf, hc⟩ |
      ⟨snap, ev0, s1, hf,
        ⟨err, ha, hc⟩ |
        ⟨abi, ha,
          ⟨err, hp, hc⟩ |
          ⟨data, hp,
            ⟨err, s2, hn, hc⟩ |
            ⟨nonce, s2, hn,
              ⟨err, s3, hg, hc⟩ |
              ⟨gasPrice, s3, hg,
                ⟨err, hs, hc⟩ |
                ⟨sig, hs,
                  ⟨err, s4, hx, hc⟩ | ⟨s4, hx, hc⟩⟩⟩⟩⟩⟩⟩
    all_goals
      rw [hf] at hst
      simp only at hst
      subst hst
    · left; rw [hc]
    · left; rw [hc]
    · left; rw [hc]
    · right; left; rw [hc, hn]
    · right; right; rw [hc, hn, hg]
    · right; right; rw [hc, hn, hg]
    · exfalso
      rw [hc] at hnone
      simp [fetch_ok_events env _ s snap ev0 _ hf, announce, Event.isSend] at hnone
    · exfalso
      rw [hc] at hnone
      simp [fetch_ok_events env _ s snap ev0 _ hf, announce, Event.isSend] at hnone

/-- C5 at the simulated run in which nothing fails: the first cycle records one
submission, accepted, with sequence number 7 and the signature made in that cycle,
and it leaves the node with pending number 8, one tick later. -/
theorem C5_one_send_per_cycle_witness :
    (relayCycle (simEnv calm) simCfg sim0).1.filter Event.isSend =
      [.sendTransaction
        { inner := cycleTx simCfg 7 1000000000 (simPack (packArgs snap75)),
          sig := [7, 31337, 1] } true] ∧
    (relayCycle (simEnv calm) simCfg sim0).2 = { time := 1, pending := 8 } :=
  (C5_one_send_per_cycle (simEnv calm) simCfg sim0).2.2.1 snap75
    [.httpGet simCfg.apiURL (some 200), .jsonDecode true] sim0 () (simPack (packArgs snap75))
    7 sim0 1000000000 sim0 [7, 31337, 1] rfl rfl rfl rfl rfl rfl

end Relayer

namespace Relayer

variable {σ β : Type}

/-- What a built transaction tells about the cycle that built it. -/
theorem built_inv (env : Env σ β) (cfg : Config) (s : σ) (tx : Transaction)
    (h : Event.newTransaction tx ∈ (relayCycle env cfg s).1) :
    ∃ snap ev0 s1 abi data nonce s2 gasPrice s3,
      fetchSentiment env cfg.apiURL s = (.ok snap, ev0, s1) ∧
      env.abiJSON contractABI = .ok abi ∧
      env.abiPack abi "submitSentiment" (packArgs snap) = .ok data ∧
      env.pendingNonceAt cfg.fromAddress s1 = (.ok nonce, s2) ∧
      env.suggestGasPrice s2 = (.ok gasPrice, s3) ∧
      tx = cycleTx cfg nonce gasPrice data ∧
      (relayCycle env cfg s).1.filterMap Event.nonceAnswer = [some nonce] := by
  rcases relayCycle_cases env cfg s with
    ⟨err, ev0, s1, hf, hc⟩ |
    ⟨snap, ev0, s1, hf,
      ⟨err, ha, hc⟩ |
      ⟨abi, ha,
        ⟨err, hp, hc⟩ |
        ⟨data, hp,
          ⟨err, s2, hn, hc⟩ |
          ⟨nonce, s2, hn,
            ⟨err, s3, hg, hc⟩ |
            ⟨gasPrice, s3, hg,
              ⟨err, hs, hc⟩ |
              ⟨sig, hs,
                ⟨err, s4, hx, hc⟩ | ⟨s4, hx, hc⟩⟩⟩⟩⟩⟩⟩
  · rcases fetch_err_events env _ s err ev0 s1 hf with h' | ⟨c, hne, h'⟩ | h' <;>
      simp [hc, h'] at h
  all_goals
    have hev := fetch_ok_events env _ s snap ev0 s1 hf
    rw [hc] at h ⊢
    simp [hev, announce] at h
  all_goals
    subst h
    exact ⟨snap, ev0, s1, abi, data, nonce, s2, gasPrice, s3, hf, ha, hp, hn, hg, rfl,
      by simp [hev, announce, Event.nonceAnswer]⟩

/-- C3: the transaction a cycle builds carries exactly the value the pending-nonce
query of that same cycle returned, and that query is the only one of the cycle;
the cycle reads nothing but the world it starts in, so any run that reaches the
same world builds the same transaction, whatever happened in earlier cycles. -/
theorem C3_nonce_from_same_cycle (env : Env σ β) (cfg : Config) (s : σ) (k : Nat)
    (tx : Transaction) (hbuilt : Event.newTransaction tx ∈ cycleTrace env cfg s k) :
    (∃ snap ev0 s1 s2,
      fetchSentiment env cfg.apiURL (stateAt env cfg s k) = (.ok snap, ev0, s1) ∧
      env.pendingNonceAt cfg.fromAddress s1 = (.ok tx.Nonce, s2)) ∧
    (cycleTrace env cfg s k).filterMap Event.nonceAnswer = [some tx.Nonce] ∧
    (∀ s' k', stateAt env cfg s' k' = stateAt env cfg s k →
      Event.newTransaction tx ∈ cycleTrace env cfg s' k') := by
  obtain ⟨snap, ev0, s1, abi, data, nonce, s2, gasPrice, s3, hf, -, -, hn, -, rfl, hq⟩ :=
    built_inv env cfg _ tx hbuilt
  refine ⟨⟨snap, ev0, s1, s2, hf, hn⟩, hq, ?_⟩
  intro s' k' hst
  unfold cycleTrace at hbuilt ⊢
  rw [hst]
  exact hbuilt

/-- C3 at the simulated node that rejects the first submission: the second cycle
builds its transaction with sequence number 7 again, the value the node reports,
not with 8. -/
theorem C3_nonce_from_same_cycle_witness :
    Event.sendTransaction
        { inner := cycleTx simCfg 7 1000000000 (simPack (packArgs snap75)),
          sig := [7, 31337, 1] } false ∈ cycleTrace (simEnv rejectFirst) simCfg sim0 0 ∧
    (cycleTrace (simEnv rejectFirst) simCfg sim0 1).filterMap Event.nonceAnswer = [some 7] :=
  ⟨by decide,
   (C3_nonce_from_same_cycle (simEnv rejectFirst) simCfg sim0 1
      (cycleTx simCfg 7 1000000000 (simPack (packArgs snap75))) (by decide)).2.1⟩

end Relayer

namespace Relayer

variable {σ β : Type}

/-- One cycle against a node whose pending sequence number `ctr` moves only when
it accepts a submission: the number never goes down, and a cycle that submits
successfully used the number it started with and leaves it one higher. -/
theorem cycle_ctr (env : Env σ β) (cfg : Config) (ctr : σ → Nat)
    (hget : ∀ u st, ctr (env.httpGet u st).2 = ctr st)
    (hnonce : ∀ a st, ctr (env.pendingNonceAt a st).2 = ctr st)
    (hquery : ∀ st n st', env.pendingNonceAt cfg.fromAddress st = (.ok n, st') → n = ctr st)
    (hgas : ∀ st, ctr (env.suggestGasPrice st).2 = ctr st)
    (htick : ∀ d st, ctr (env.tick d st) = ctr st)
    (hreject : ∀ stx st e st', env.sendTransaction stx st = (.error e, st') → ctr st' = ctr st)
    (haccept : ∀ stx st st', env.sendTransaction stx st = (.ok (), st') →
      stx.inner.Nonce = ctr st → ctr st' = ctr st + 1)
    (s : σ) :
    ctr s ≤ ctr (relayCycle env cfg s).2 ∧
    ∀ stx, Event.sendTransaction stx true ∈ (relayCycle env cfg s).1 →
      stx.inner.Nonce = ctr s ∧ ctr (relayCycle env cfg s).2 = ctr s + 1 := by
  rcases relayCycle_cases env cfg s with
    ⟨err, ev0, s1, hf, hc⟩ |
    ⟨snap, ev0, s1, hf,
      ⟨err, ha, hc⟩ |
      ⟨abi, ha,
        ⟨err, hp, hc⟩ |
        ⟨data, hp,
          ⟨err, s2, hn, hc⟩ |
          ⟨nonce, s2, hn,
            ⟨err, s3, hg, hc⟩ |
            ⟨gasPrice, s3, hg,
              ⟨err, hs, hc⟩ |
              ⟨sig, hs,
                ⟨err, s4, hx, hc⟩ | ⟨s4, hx, hc⟩⟩⟩⟩⟩⟩⟩
  · have h1 : ctr s1 = ctr s := by
      have := fetch_state env cfg.apiURL s
      rw [hf] at this
      simp only at this
      rw [this]; exact hget _ _
    rcases fetch_err_events env _ s err ev0 s1 hf with h | ⟨c, hne, h⟩ | h <;>
      simp [hc, h, htick, h1]
  all_goals
    have hev := fetch_ok_events env _ s snap ev0 s1 hf
    have h1 : ctr s1 = ctr s := by
      have := fetch_state env cfg.apiURL s
      rw [hf] at this
      simp only at this
      rw [this]; exact hget _ _
  · simp [hc, hev, announce, htick, h1]
  · simp [hc, hev, announce, htick, h1]
  · have h2 : ctr s2 = ctr s1 := by have := hnonce cfg.fromAddress s1; rwa [hn] at this
    simp [hc, hev, announce, htick, h1, h2]
  all_goals
    have h2 : ctr s2 = ctr s1 := by have := hnonce cfg.fromAddress s1; rwa [hn] at this
    have h3 : ctr s3 = ctr s2 := by have := hgas s2; rwa [hg] at this
    have hq : nonce = ctr s1 := hquery s1 nonce s2 hn
  · simp [hc, hev, announce, htick, h1, h2, h3]
  · simp [hc, hev, announce, htick, h1, h2, h3]
  · have h4 : ctr s4 = ctr s3 := hreject _ _ _ _ hx
    simp [hc, hev, announce, htick, h1, h2, h3, h4]
  · have h4 : ctr s4 = ctr s3 + 1 := by
      apply haccept _ _ _ hx
      simp [cycleTx, hq, h2, h3]
    simp [hc, hev, announce, htick, h1, h2, h3, h4, cycleTx, hq]

/-- C4: against a node whose pending sequence number for the sender is reported
by the nonce query and is moved only by this relay's accepted submissions, each
of which advances it by one, any two cycles of a run that both submit
successfully carry strictly increasing sequence numbers. -/
theorem C4_sequence_numbers_increase (env : Env σ β) (cfg : Config) (ctr : σ → Nat)
    (hget : ∀ u st, ctr (env.httpGet u st).2 = ctr st)
    (hnonce : ∀ a st, ctr (env.pendingNonceAt a st).2 = ctr st)
    (hquery : ∀ st n st', env.pendingNonceAt cfg.fromAddress st = (.ok n, st') → n = ctr st)
    (hgas : ∀ st, ctr (env.suggestGasPrice st).2 = ctr st)
    (htick : ∀ d st, ctr (env.tick d st) = ctr st)
    (hreject : ∀ stx st e st', env.sendTransaction stx st = (.error e, st') → ctr st' = ctr st)
    (haccept : ∀ stx st st', env.sendTransaction stx st = (.ok (), st') →
      stx.inner.Nonce = ctr st → ctr st' = ctr st + 1)
    (s : σ) (i j : Nat) (stx_i stx_j : SignedTx) (hij : i < j)
    (hi : Event.sendTransaction stx_i true ∈ cycleTrace env cfg s i)
    (hj : Event.sendTransaction stx_j true ∈ cycleTrace env cfg s j) :
    stx_i.inner.Nonce < stx_j.inner.Nonce := by
  have hstep := cycle_ctr env cfg ctr hget hnonce hquery hgas htick hreject haccept
  have hmono : ∀ d k, ctr (stateAt env cfg s k) ≤ ctr (stateAt env cfg s (k + d)) := by
    intro d
    induction d with
    | zero => intro k; exact le_rfl
    | succ d ih =>
      intro k
      calc ctr (stateAt env cfg s k) ≤ ctr (stateAt env cfg s (k + d)) := ih k
        _ ≤ ctr (stateAt env cfg s (k + d + 1)) := (hstep (stateAt env cfg s (k + d))).1
  obtain ⟨hni, hci⟩ := (hstep (stateAt env cfg s i)).2 stx_i hi
  obtain ⟨hnj, -⟩ := (hstep (stateAt env cfg s j)).2 stx_j hj
  have hle : ctr (stateAt env cfg s (i + 1)) ≤ ctr (stateAt env cfg s j) := by
    have := hmono (j - (i + 1)) (i + 1)
    rwa [Nat.add_sub_cancel' hij] at this
  have hnext : ctr (stateAt env cfg s (i + 1)) = ctr (stateAt env cfg s i) + 1 := hci
  omega

theorem sim_get (sc : Script) (u : String) (st : Sim) :
    ((simEnv sc).httpGet u st).2.pending = st.pending := rfl

theorem sim_nonce (sc : Script) (a : Address) (st : Sim) :
    ((simEnv sc).pendingNonceAt a st).2.pending = st.pending := by
  simp only [simEnv]
  split <;> rfl

theorem sim_query (sc : Script) (a : Address) (st : Sim) (n : Nat) (st' : Sim)
    (h : (simEnv sc).pendingNonceAt a st = (.ok n, st')) : n = st.pending := by
  simp only [simEnv] at h
  split at h <;> simp at h
  exact h.1.symm

theorem sim_gas (sc : Script) (st : Sim) :
    ((simEnv sc).suggestGasPrice st).2.pending = st.pending := by
  simp only [simEnv]
  split <;> rfl

theorem sim_reject (sc : Script) (stx : SignedTx) (st : Sim) (e : String) (st' : Sim)
    (h : (simEnv sc).sendTransaction stx st = (.error e, st')) : st'.pending = st.pending := by
  simp only [simEnv] at h
  split at h <;> simp at h
  rw [← h.2]

theorem sim_accept (sc : Script) (stx : SignedTx) (st st' : Sim)
    (h : (simEnv sc).sendTransaction stx st = (.ok (), st')) :
    st'.pending = st.pending + 1 := by
  simp only [simEnv] at h
  split at h <;> simp at h
  rw [← h]

/-- C4 at the simulated run in which nothing fails: the first cycle submits with
sequence number 7, the second with 8. -/
theorem C4_sequence_numbers_increase_witness :
    Event.sendTransaction
        { inner := cycleTx simCfg 7 1000000000 (simPack (packArgs snap75)),
          sig := [7, 31337, 1] } true ∈ cycleTrace (simEnv calm) simCfg sim0 0 ∧
    Event.sendTransaction
        { inner := cycleTx simCfg 8 1000000000 (simPack (packArgs snap75)),
          sig := [8, 31337, 1] } true ∈ cycleTrace (simEnv calm) simCfg sim0 1 ∧
    (cycleTx simCfg 7 1000000000 (simPack (packArgs snap75))).Nonce <
      (cycleTx simCfg 8 1000000000 (simPack (packArgs snap75))).Nonce :=
  ⟨by decide, by decide,
   C4_sequence_numbers_increase (simEnv calm) simCfg Sim.pending
    (sim_get calm) (sim_nonce calm) (fun st n st' h => sim_query calm _ st n st' h)
    (sim_gas calm) (fun _ _ => rfl) (sim_reject calm)
    (fun stx st st' h _ => sim_accept calm stx st st' h)
    sim0 0 1
    { inner := cycleTx simCfg 7 1000000000 (simPack (packArgs snap75)), sig := [7, 31337, 1] }
    { inner := cycleTx simCfg 8 1000000000 (simPack (packArgs snap75)), sig := [8, 31337, 1] }
    (by decide) (by decide) (by decide)⟩

end Relayer

namespace Relayer

variable {σ β : Type}

/-- C6, as the code has it: a transaction built in a cycle that fetched the
snapshot `(oracle_score = s, text_preview = t)` goes to the configured contract
address with value 0, gas limit 200000 and the gas price suggested in that cycle,
and its call data encodes `submitSentiment("relayer", t, v)` where `v` is
`2*s - 100` reduced to the 64-bit range of Go's `int`; `v` is `2*s - 100` itself
whenever that value fits the range, and for `s = 75`, `t = "market looking
strong"` the arguments are `("relayer", "market looking strong", 50)`. -/
theorem C6_transaction_fields (env : Env σ β) (cfg : Config) (s : σ) (tx : Transaction)
    (hbuilt : Event.newTransaction tx ∈ (relayCycle env cfg s).1) :
    ∃ snap ev0 s1 abi nonce s2 s3,
      fetchSentiment env cfg.apiURL s = (.ok snap, ev0, s1) ∧
      env.abiJSON contractABI = .ok abi ∧
      env.pendingNonceAt cfg.fromAddress s1 = (.ok nonce, s2) ∧
      env.suggestGasPrice s2 = (.ok tx.GasPrice, s3) ∧
      tx.To = cfg.contractAddr ∧ tx.Value = 0 ∧ tx.Gas = 200000 ∧
      env.abiPack abi "submitSentiment"
        [.str "relayer", .str snap.TextPreview,
         .bigInt (wrapInt (2 * snap.OracleScore - 100))] = .ok tx.Data ∧
      (-(2 ^ 63) ≤ 2 * snap.OracleScore - 100 → 2 * snap.OracleScore - 100 < 2 ^ 63 →
        env.abiPack abi "submitSentiment"
          [.str "relayer", .str snap.TextPreview, .bigInt (2 * snap.OracleScore - 100)]
          = .ok tx.Data) ∧
      (snap.OracleScore = 75 → snap.TextPreview = "market looking strong" →
        env.abiPack abi "submitSentiment"
          [.str "relayer", .str "market looking strong", .bigInt 50] = .ok tx.Data) := by
  obtain ⟨snap, ev0, s1, abi, data, nonce, s2, gasPrice, s3, hf, ha, hp, hn, hg, rfl, -⟩ :=
    built_inv env cfg s tx hbuilt
  have hargs : packArgs snap = [.str "relayer", .str snap.TextPreview,
      .bigInt (wrapInt (2 * snap.OracleScore - 100))] := by
    simp [packArgs, sentimentScore_wrap, wrapInt_idem]
  rw [hargs] at hp
  refine ⟨snap, ev0, s1, abi, nonce, s2, s3, hf, ha, hn, hg, rfl, rfl, rfl, hp, ?_, ?_⟩
  · intro h0 h1
    rw [wrapInt_of_mem _ h0 h1] at hp
    exact hp
  · intro h75 ht
    rw [h75, ht] at hp
    exact hp

/-- C6 at the simulated run in which nothing fails, whose feed serves score 75 and
the text "market looking strong". -/
theorem C6_transaction_fields_witness :
    Event.newTransaction (cycleTx simCfg 7 1000000000 (simPack (packArgs snap75))) ∈
      (relayCycle (simEnv calm) simCfg sim0).1 ∧
    ∃ snap ev0 s1 abi nonce s2 s3,
      fetchSentiment (simEnv calm) simCfg.apiURL sim0 = (.ok snap, ev0, s1) ∧
      (simEnv calm).abiJSON contractABI = .ok abi ∧
      (simEnv calm).pendingNonceAt simCfg.fromAddress s1 = (.ok nonce, s2) ∧
      (simEnv calm).suggestGasPrice s2 =
        (.ok (cycleTx simCfg 7 1000000000 (simPack (packArgs snap75))).GasPrice, s3) ∧
      (cycleTx simCfg 7 1000000000 (simPack (packArgs snap75))).To = simCfg.contractAddr ∧
      (cycleTx simCfg 7 1000000000 (simPack (packArgs snap75))).Value = 0 ∧
      (cycleTx simCfg 7 1000000000 (simPack (packArgs snap75))).Gas = 200000 ∧
      (simEnv calm).abiPack abi "submitSentiment"
        [.str "relayer", .str snap.TextPreview,
         .bigInt (wrapInt (2 * snap.OracleScore - 100))]
        = .ok (cycleTx simCfg 7 1000000000 (simPack (packArgs snap75))).Data ∧
      (-(2 ^ 63) ≤ 2 * snap.OracleScore - 100 → 2 * snap.OracleScore - 100 < 2 ^ 63 →
        (simEnv calm).abiPack abi "submitSentiment"
          [.str "relayer", .str snap.TextPreview, .bigInt (2 * snap.OracleScore - 100)]
          = .ok (cycleTx simCfg 7 1000000000 (simPack (packArgs snap75))).Data) ∧
      (snap.OracleScore = 75 → snap.TextPreview = "market looking strong" →
        (simEnv calm).abiPack abi "submitSentiment"
          [.str "relayer", .str "market looking strong", .bigInt 50]
          = .ok (cycleTx simCfg 7 1000000000 (simPack (packArgs snap75))).Data) :=
  ⟨by decide,
   C6_transaction_fields (simEnv calm) simCfg sim0
     (cycleTx simCfg 7 1000000000 (simPack (packArgs snap75))) (by decide)⟩

/-- C6 fails as stated: with the fetched score `s = 2^62 + 50` the cycle reaches
transaction construction, `2*s - 100` is `2^63`, and the call data encodes
`-2^63`, not `2^63`. -/
theorem C6_counterexample :
    fetchSentiment (simEnv scoreHuge) simCfg.apiURL sim0 =
      (.ok snapHuge, [.httpGet simCfg.apiURL (some 200), .jsonDecode true], sim0) ∧
    snapHuge.OracleScore = 2 ^ 62 + 50 ∧
    2 * snapHuge.OracleScore - 100 = 9223372036854775808 ∧
    Event.abiPack "submitSentiment"
        [.str "relayer", .str "x", .bigInt (-9223372036854775808)] true ∈
      (relayCycle (simEnv scoreHuge) simCfg sim0).1 ∧
    Event.newTransaction
        (cycleTx simCfg 7 1000000000
          (simPack [.str "relayer", .str "x", .bigInt (-9223372036854775808)])) ∈
      (relayCycle (simEnv scoreHuge) simCfg sim0).1 ∧
    Event.newTransaction
        (cycleTx simCfg 7 1000000000
          (simPack [.str "relayer", .str "x", .bigInt (2 * snapHuge.OracleScore - 100)])) ∉
      (relayCycle (simEnv scoreHuge) simCfg sim0).1 :=
  ⟨rfl, by decide, by decide, by decide, by decide, by decide⟩

end Relayer

namespace Relayer

variable {σ β : Type}

/-- C8, as the code has it: `fetchSentiment` returns without error exactly when
the GET succeeds with status 200 and the body decodes, and it returns the decoded
snapshot as it is, with no check of the score; in a cycle whose fetched score is in
`[0, 100]` the score passed to `submitSentiment` lies in `[-100, 100]`. -/
theorem C8_range_only_for_feed_in_range (env : Env σ β) (cfg : Config) (s : σ)
    (snap : SentimentResponse) (ev0 : List Event) (s1 : σ) :
    (fetchSentiment env cfg.apiURL s = (.ok snap, ev0, s1) ↔
      ∃ resp, env.httpGet cfg.apiURL s = (.ok resp, s1) ∧ resp.StatusCode = 200 ∧
        env.jsonDecode resp.Body = .ok snap ∧
        ev0 = [.httpGet cfg.apiURL (some 200), .jsonDecode true]) ∧
    (fetchSentiment env cfg.apiURL s = (.ok snap, ev0, s1) →
      0 ≤ snap.OracleScore → snap.OracleScore ≤ 100 →
      ∀ method args ok, Event.abiPack method args ok ∈ (relayCycle env cfg s).1 →
        ∃ v, args = [.str "relayer", .str snap.TextPreview, .bigInt v] ∧
          v = 2 * snap.OracleScore - 100 ∧ -100 ≤ v ∧ v ≤ 100) := by
  constructor
  · rcases fetchSentiment_cases env cfg.apiURL s with ⟨e, t, hg, hc⟩ | ⟨r, t, hg, hne, hc⟩ |
      ⟨r, t, e, hg, hs, hd, hc⟩ | ⟨r, t, sn, hg, hs, hd, hc⟩
    · simp [hc, hg]
    · simp [hc, hg]
      intro _ h200
      exact absurd h200 hne
    · simp [hc, hg, hd]
    · rw [hc, hg]
      constructor
      · intro h
        simp only [Prod.mk.injEq, Except.ok.injEq] at h
        obtain ⟨rfl, rfl, rfl⟩ := h
        exact ⟨r, rfl, hs, hd, rfl⟩
      · rintro ⟨resp, h, -, hd', hev⟩
        simp only [Prod.mk.injEq, Except.ok.injEq] at h
        obtain ⟨rfl, rfl⟩ := h
        rw [hd] at hd'
        simp only [Except.ok.injEq] at hd'
        subst hd' hev
        rfl
  · intro hfetch h0 h1 method args ok hmem
    have hlin : sentimentScore snap.OracleScore = 2 * snap.OracleScore - 100 :=
      sentimentScore_of_mem _ (by norm_num; omega) (by norm_num; omega)
    have hargs : packArgs snap = [.str "relayer", .str snap.TextPreview,
        .bigInt (2 * snap.OracleScore - 100)] := by
      simp only [packArgs, hlin]
      rw [wrapInt_of_mem _ (by norm_num; omega) (by norm_num; omega)]
    have hev := fetch_ok_events env _ s snap ev0 s1 hfetch
    rcases relayCycle_cases env cfg s with
      ⟨err, ev0', s1', hf, hc⟩ |
      ⟨snap', ev0', s1', hf,
        ⟨err, ha, hc⟩ |
        ⟨abi, ha,
          ⟨err, hp, hc⟩ |
          ⟨data, hp,
            ⟨err, s2, hn, hc⟩ |
            ⟨nonce, s2, hn,
              ⟨err, s3, hg, hc⟩ |
              ⟨gasPrice, s3, hg,
                ⟨err, hs, hc⟩ |
                ⟨sig, hs,
                  ⟨err, s4, hx, hc⟩ | ⟨s4, hx, hc⟩⟩⟩⟩⟩⟩⟩
    · rw [hfetch] at hf; simp at hf
    all_goals
      rw [hfetch] at hf
      simp only [Prod.mk.injEq, Except.ok.injEq] at hf
      obtain ⟨rfl, rfl, rfl⟩ := hf
      rw [hc] at hmem
      simp [hev, announce] at hmem
    all_goals
      obtain ⟨-, rfl, -⟩ := hmem
      exact ⟨2 * snap.OracleScore - 100, hargs, rfl, by omega, by omega⟩

/-- C8 at the simulated feed that serves score 75. -/
theorem C8_range_only_for_feed_in_range_witness :
    fetchSentiment (simEnv calm) simCfg.apiURL sim0 =
      (.ok snap75, [.httpGet simCfg.apiURL (some 200), .jsonDecode true], sim0) ∧
    ∃ v, [AbiArg.str "relayer", AbiArg.str "market looking strong", AbiArg.bigInt 50] =
        [.str "relayer", .str snap75.TextPreview, .bigInt v] ∧
      v = 2 * snap75.OracleScore - 100 ∧ -100 ≤ v ∧ v ≤ 100 :=
  ⟨rfl,
   (C8_range_only_for_feed_in_range (simEnv calm) simCfg sim0 snap75
      [.httpGet simCfg.apiURL (some 200), .jsonDecode true] sim0).2 rfl (by decide) (by decide)
      "submitSentiment"
      [AbiArg.str "relayer", AbiArg.str "market looking strong", AbiArg.bigInt 50] true
      (by decide)⟩

/-- C8 fails as stated: a body with `oracle_score` 150 and status 200 is returned
by `fetchSentiment` without error, and the cycle passes 200 to `submitSentiment`. -/
theorem C8_counterexample :
    fetchSentiment (simEnv score150) simCfg.apiURL sim0 =
      (.ok snap150, [.httpGet simCfg.apiURL (some 200), .jsonDecode true], sim0) ∧
    snap150.OracleScore = 150 ∧ ¬ (snap150.OracleScore ≤ 100) ∧
    Event.abiPack "submitSentiment"
        [.str "relayer", .str "to the moon", .bigInt 200] true ∈
      (relayCycle (simEnv score150) simCfg sim0).1 ∧
    ¬ ((200 : Int) ≤ 100) :=
  ⟨rfl, by decide, by decide, by decide, by decide⟩

end Relayer

namespace Relayer

variable {σ β : Type}

theorem relayLoop_no_exit (env : Env σ β) (cfg : Config) (fuel : Nat) :
    ∀ s, ∀ e ∈ (relayLoop env cfg fuel s).1, e.isExit = false := by
  induction fuel with
  | zero => intro s e he; simp [relayLoop] at he
  | succ n ih =>
    intro s e he
    rw [relayLoop_succ] at he
    rcases List.mem_append.mp he with h | h
    · exact relayCycle_no_exit env cfg s e h
    · exact ih _ e h

/-- In a run of `main`, an event that ends the process comes before any stage of any cycle. -/
theorem main_exit_only_at_startup (env : Env σ β) (osGetenv : String → String) (fuel : Nat)
    (s : σ) (e : Event) (he : e ∈ (main env osGetenv fuel s).1) (hx : e.isExit = true) :
    stagesOf (main env osGetenv fuel s).1 = [] := by
  unfold main at he ⊢
  simp only at he ⊢
  split
  · simp [stagesOf, Event.stage]
  split
  · simp [stagesOf, Event.stage]
  split
  · simp [stagesOf, Event.stage]
  split
  · simp [stagesOf, Event.stage]
  split
  · simp [stagesOf, Event.stage]
  split
  · simp [stagesOf, Event.stage]
  split
  · simp [stagesOf, Event.stage]
  split
  · simp [stagesOf, Event.stage]
  split
  · simp [stagesOf, Event.stage]
  · rename_i h1 h2 _ _ h3 _ _ h4 _ _ _ h5 _ _ _ h6 _ _ h7 _ _ h8 h9
    exfalso
    simp only [h1, h2, h3, h4, h5, h6, h7, h8, h9, if_false] at he
    rcases List.mem_append.mp he with h | h
    · simp at h
      rcases h with h | h | h | h | h | h | h | h <;>
      · subst h
        simp [Event.isExit] at hx
    · have hno := relayLoop_no_exit env _ fuel _ e h
      rw [hx] at hno
      cases hno

end Relayer

namespace DataStream

variable {ω : Type}

/-- The read loop closes the channel exactly when it reaches end of file, that is
when the error counter never passes 100. -/
theorem readLoop_closes_iff (colMap : ColMap) (chanReady : Int → Bool)
    (reads : List ReadResult) :
    ∀ c : Counters, Event.chanClose ∈ readLoop colMap chanReady reads c ↔
      (reads.countP ReadResult.isErr = 0 ∨
        c.errorCount + (reads.countP ReadResult.isErr : Int) ≤ 100) := by
  induction reads with
  | nil => intro c; simp [readLoop]
  | cons r rest ih =>
    intro c
    cases r with
    | err msg =>
      have hcnt : (ReadResult.err msg :: rest).countP ReadResult.isErr =
          rest.countP ReadResult.isErr + 1 := by
        simp [List.countP_cons, ReadResult.isErr]
      rw [hcnt]
      simp only [readLoop]
      by_cases hlim : c.errorCount + 1 > 100
      · simp only [hlim, if_true]
        constructor
        · intro h; simp at h
        · rintro (h | h)
          · omega
          · push_cast at h; omega
      · simp only [hlim, if_false, List.mem_cons, ih]
        constructor
        · rintro (h | h | h)
          · simp at h
          · right; rw [h]; push_cast; omega
          · right; push_cast; omega
        · rintro (h | h)
          · omega
          · right; right; push_cast at h; omega
    | record record =>
      have hcnt : (ReadResult.record record :: rest).countP ReadResult.isErr =
          rest.countP ReadResult.isErr := by
        simp [List.countP_cons, ReadResult.isErr]
      rw [hcnt]
      simp only [readLoop]
      split
      · simp [ih]
      · split
        · simp [ih]
        · split
          · simp [ih]
          · split <;> simp [ih]

/-- The shutdown line is printed exactly when the range over the channel ends. -/
theorem startBridge_shutdown_iff (env : BridgeEnv ω) (targetURL : String)
    (posts : List SocialPost) (e : RangeEnd) :
    ∀ w, Event.fmtPrintln "Firehose shutdown complete." ∈
      (startBridge env targetURL posts e w).1 ↔ e = .closed := by
  induction posts with
  | nil => intro w; cases e <;> simp [startBridge]
  | cons p rest ih =>
    intro w
    have hstep : Event.fmtPrintln "Firehose shutdown complete." ∉
        (bridgeStep env targetURL p w).1 := by
      unfold bridgeStep
      simp only
      split
      · simp
      · split
        · simp
        · split
          · simp
          · split <;> simp
    simp only [startBridge, List.mem_append, ih]
    constructor
    · rintro (h | h)
      · exact absurd h hstep
      · exact h
    · intro h; exact Or.inr h

/-- The earlier read loop closes the channel on every path. -/
theorem stage1_readLoop_closes (colMap : ColMap) (reads : List ReadResult) :
    Event.chanClose ∈ Stage1.readLoop colMap reads := by
  induction reads with
  | nil => simp [Stage1.readLoop]
  | cons r rest ih =>
    cases r with
    | err msg => simp [Stage1.readLoop]
    | record record => simp [Stage1.readLoop, ih]

/-- One pass of the bridge never prints the shutdown line. -/
theorem bridgeStep_no_shutdown (env : BridgeEnv ω) (targetURL : String) (p : SocialPost)
    (w : ω) : Event.fmtPrintln "Firehose shutdown complete." ∉
      (bridgeStep env targetURL p w).1 := by
  unfold bridgeStep
  simp only
  split
  · simp
  · split
    · simp
    · split
      · simp
      · split <;> simp

/-- On a closed channel the bridge handles the posts and then prints the shutdown
line, once, as its last event. -/
theorem startBridge_closed (env : BridgeEnv ω) (targetURL : String)
    (posts : List SocialPost) :
    ∀ w, ∃ evs, (startBridge env targetURL posts .closed w).1 =
        evs ++ [.fmtPrintln "Firehose shutdown complete."] ∧
      Event.fmtPrintln "Firehose shutdown complete." ∉ evs := by
  induction posts with
  | nil => intro w; exact ⟨[], by simp [startBridge], by simp⟩
  | cons p rest ih =>
    intro w
    obtain ⟨evs, hk, hno⟩ := ih (bridgeStep env targetURL p w).2
    refine ⟨(bridgeStep env targetURL p w).1 ++ evs, ?_, ?_⟩
    · simp only [startBridge, hk, List.append_assoc]
    · intro hmem
      rcases List.mem_append.mp hmem with h | h
      · exact bridgeStep_no_shutdown env targetURL p w h
      · exact hno h

/-- While the error counter stays at or below 100 the read loop runs to end of
file: its trace ends with the end-of-dataset line, which reports every error
read, and the closing of the channel, and it closes the channel nowhere else. -/
theorem readLoop_reaches_eof (colMap : ColMap) (chanReady : Int → Bool)
    (reads : List ReadResult) :
    ∀ c : Counters, c.errorCount + (reads.countP ReadResult.isErr : Int) ≤ 100 →
      ∃ body rows skipped, readLoop colMap chanReady reads c =
          body ++ [.logPrintf
            "🏁 Reached end of dataset. Processed %d rows, skipped %d empty rows, %d errors."
            [.int rows, .int skipped,
             .int (c.errorCount + (reads.countP ReadResult.isErr : Int))], .chanClose] ∧
        Event.chanClose ∉ body := by
  induction reads with
  | nil =>
    intro c _
    exact ⟨[], c.rowCount, c.skippedCount, by simp [readLoop], by simp⟩
  | cons r rest ih =>
    intro c hc
    cases r with
    | err msg =>
      have hcnt : (ReadResult.err msg :: rest).countP ReadResult.isErr =
          rest.countP ReadResult.isErr + 1 := by
        simp [List.countP_cons, ReadResult.isErr]
      rw [hcnt] at hc ⊢
      push_cast at hc ⊢
      have hlim : ¬ (c.errorCount + 1 > 100) := by omega
      obtain ⟨body, rows, skipped, hrun, hno⟩ :=
        ih { c with errorCount := c.errorCount + 1 } (by simp only; omega)
      have harith : c.errorCount + 1 + (rest.countP ReadResult.isErr : Int) =
          c.errorCount + ((rest.countP ReadResult.isErr : Int) + 1) := by omega
      dsimp only at hrun
      rw [harith] at hrun
      simp only [readLoop, hlim, if_false, hrun]
      exact ⟨_ :: body, rows, skipped, rfl, by simp [hno]⟩
    | record record =>
      have hcnt : (ReadResult.record record :: rest).countP ReadResult.isErr =
          rest.countP ReadResult.isErr := by
        simp [List.countP_cons, ReadResult.isErr]
      rw [hcnt] at hc ⊢
      simp only [readLoop]
      split
      · exact ih _ hc
      · split
        · exact ih _ hc
        · split
          · exact ih _ hc
          · obtain ⟨body, rows, skipped, hrun, hno⟩ :=
              ih { c with rowCount := c.rowCount + 1 } hc
            dsimp only at hrun
            rw [hrun]
            refine ⟨_ :: _ :: body, rows, skipped, rfl, ?_⟩
            simp only [List.mem_cons, not_or]
            refine ⟨?_, by simp, hno⟩
            split <;> simp

/-- C10: on every dataset for which the reader returns at most 100 errors other
than end of file (the reader configured in lines 56-59 returns none), the read
loop of `igniteFirehose` stops at end of file and has then closed the post
channel, as the last thing it does and only then; the range of `startBridge` over
the channel therefore ends, and the bridge prints its shutdown line, once, as its
last event. -/
theorem C10_read_loop_closes_channel (colMap : ColMap) (chanReady : Int → Bool)
    (reads : List ReadResult) (env : BridgeEnv ω) (targetURL : String) (w : ω)
    (herr : reads.countP ReadResult.isErr ≤ 100) :
    (∃ body rows skipped, readLoop colMap chanReady reads zeroCounters =
        body ++ [.logPrintf
          "🏁 Reached end of dataset. Processed %d rows, skipped %d empty rows, %d errors."
          [.int rows, .int skipped, .int (reads.countP ReadResult.isErr : Int)],
          .chanClose] ∧
      Event.chanClose ∉ body) ∧
    rangeEnd (readLoop colMap chanReady reads zeroCounters) = .closed ∧
    (∃ evs, (startBridge env targetURL
          (sentPosts (readLoop colMap chanReady reads zeroCounters))
          (rangeEnd (readLoop colMap chanReady reads zeroCounters)) w).1 =
        evs ++ [.fmtPrintln "Firehose shutdown complete."] ∧
      Event.fmtPrintln "Firehose shutdown complete." ∉ evs) := by
  have hc : zeroCounters.errorCount + (reads.countP ReadResult.isErr : Int) ≤ 100 := by
    simp only [zeroCounters]
    omega
  obtain ⟨body, rows, skipped, hrun, hno⟩ :=
    readLoop_reaches_eof colMap chanReady reads zeroCounters hc
  have hclosed : rangeEnd (readLoop colMap chanReady reads zeroCounters) = .closed := by
    simp [rangeEnd, hrun]
  refine ⟨⟨body, rows, skipped, ?_, hno⟩, hclosed, ?_⟩
  · rw [hrun]
    simp [zeroCounters]
  · rw [hclosed]
    exact startBridge_closed env targetURL _ w

/-- C10 on a small dataset, two records around a row of empty fields and then end
of file: the channel is closed and the bridge reaches its shutdown line. -/
theorem C10_read_loop_closes_channel_witness :
    soundReads.countP ReadResult.isErr ≤ 100 ∧
    rangeEnd (readLoop demoColMap (fun _ => true) soundReads zeroCounters) = .closed ∧
    (∃ evs, (startBridge okBridge "http://localhost:8000/analyze"
          (sentPosts (readLoop demoColMap (fun _ => true) soundReads zeroCounters))
          (rangeEnd (readLoop demoColMap (fun _ => true) soundReads zeroCounters)) ()).1 =
        evs ++ [.fmtPrintln "Firehose shutdown complete."] ∧
      Event.fmtPrintln "Firehose shutdown complete." ∉ evs) :=
  ⟨by decide,
   (C10_read_loop_closes_channel demoColMap (fun _ => true) soundReads okBridge
      "http://localhost:8000/analyze" () (by decide)).2⟩

end DataStream
